import Mathlib

/-!
# Verification of the javascript-nes emulator core

A shallow embedding, in Lean 4, of the parts of the javascript-nes emulator
that the specification's claims are about:

* `src/cpu.js` — the 6502 interpreter (`CPU.emulate`, the interrupt gate,
  the stack primitives, the opcode table);
* `src/mappers.js` — the base `Mapper` bus dispatch, `Mapper1` (MMC1) serial
  register, `Mapper4` (MMC3) scanline IRQ;
* `src/ppu.js` — `readStatusRegister`, `sramDMA`, `startVBlank`, and the
  background-scanline tile-fetch count of `renderBgScanline`;
* `rom.js` — the iNES loader `ROM.load`.

JavaScript numbers that stay non-negative are modelled as `Nat`; values that
can go negative (the program counter, subtraction temporaries) are `Int`,
with the JS bitwise operators modelled through 32-bit two's complement
(`jsToUint32` below), exactly as ECMAScript coerces operands via `ToInt32`.

The CPU's memory accesses go through two distinct channels in the source:
the raw `this.mem` typed array, and the mapper object `this.nes.mmap`.  The
embedding keeps the CPU registers in `CPUState` and leaves everything the
CPU reaches through those two channels (RAM, PPU registers, cartridge) in an
abstract world type `σ` accessed through a `Bus σ` record, mirroring the
object graph of the source.  `ramBus` instantiates the bus with a flat
64 KiB RAM for concrete executions.
-/

set_option linter.unusedVariables false
set_option linter.unreachableTactic false
set_option linter.unusedTactic false

namespace JsNes

/-- ECMAScript `ToInt32`/`ToUint32` wrap: the 32-bit two's-complement image
of an integer, as a `Nat` in `[0, 2^32)`.  (`Int.emod` is non-negative for a
positive modulus.) -/
def jsToUint32 (i : Int) : Nat :=
  (i % 4294967296).toNat

/-- JavaScript `i & m` for a (possibly negative) left operand and a
non-negative mask below `2^31`. -/
def jsAnd (i : Int) (m : Nat) : Nat :=
  jsToUint32 i &&& m

/-- JavaScript `i ^ j` restricted to the low 32 bits (both operands are
coerced through `ToInt32`; the emulator only ever inspects low bits of the
result). -/
def jsXor (i j : Int) : Nat :=
  jsToUint32 i ^^^ jsToUint32 j

/-- JavaScript `(i >> k) & 1` for `k < 31`: bit `k` of the two's-complement
image. -/
def jsBit (i : Int) (k : Nat) : Nat :=
  (jsToUint32 i >>> k) &&& 1

/-- JavaScript `(i >> 8) & 0xff` for `i` in int32 range. -/
def jsShr8And (i : Int) : Nat :=
  (jsToUint32 i >>> 8) &&& 0xff

/-! ## CPU state (`src/cpu.js`)

The fields pre-declared in the `CPU` constructor (cpu.js lines 43-72),
except `this.mem`: the 64 KiB `Uint8Array` lives in the bus world `σ`
(see the module comment).  Note that the constructor declares **no**
`cycles` property; see `cpuCyclesProperty` below. -/

structure CPUState where
  REG_ACC : Nat
  REG_X : Nat
  REG_Y : Nat
  REG_SP : Nat
  REG_PC : Int
  REG_PC_NEW : Int
  REG_STATUS : Nat
  F_CARRY : Nat
  F_DECIMAL : Nat
  F_INTERRUPT : Nat
  F_INTERRUPT_NEW : Nat
  F_OVERFLOW : Nat
  F_SIGN : Nat
  F_ZERO : Nat
  F_NOTUSED : Nat
  F_NOTUSED_NEW : Nat
  F_BRK : Nat
  F_BRK_NEW : Nat
  cyclesToHalt : Nat
  crash : Bool
  irqRequested : Bool
  irqType : Option Nat
deriving Repr, DecidableEq

/-- The register/flag part of `CPU.reset()` (cpu.js lines 90-117).  The
memory-initialisation part of `reset()` fills `this.mem`, which lives in the
bus world, not in `CPUState`. -/
def resetState : CPUState where
  REG_ACC := 0
  REG_X := 0
  REG_Y := 0
  REG_SP := 0xff
  REG_PC := 0x8000 - 1
  REG_PC_NEW := 0x8000 - 1
  REG_STATUS := 0x28
  F_CARRY := 0
  F_DECIMAL := 0
  F_INTERRUPT := 1
  F_INTERRUPT_NEW := 1
  F_OVERFLOW := 0
  F_SIGN := 0
  F_ZERO := 1
  F_NOTUSED := 1
  F_NOTUSED_NEW := 1
  F_BRK := 1
  F_BRK_NEW := 1
  cyclesToHalt := 0
  crash := false
  irqRequested := false
  irqType := none

/-- The two memory channels the CPU code uses: the raw `this.mem` array
(`memRead`/`memWrite`, always indexed with an already-masked `Nat`) and the
mapper object `this.nes.mmap` (`mmapLoad`/`mmapWrite`, handed the raw
JavaScript number).  `stop` is `this.nes.stop()`, reached only from the
invalid-opcode default case. -/
structure Bus (σ : Type) where
  memRead : σ → Nat → Nat
  memWrite : σ → Nat → Nat → σ
  mmapLoad : σ → Int → Nat × σ
  mmapWrite : σ → Int → Nat → σ
  stop : σ → σ

variable {σ : Type}

namespace CPU

/-- JavaScript `a < b` on integers, as a Boolean, defined by cases on the
two signs so that both proofs and the kernel can evaluate it without deep
unfolding (the `Decidable` instance of `Int.lt` recurses through
`Int.subNatNat`, which is linear in the literal bound). -/
def jsLtInt (a b : Int) : Bool :=
  match a, b with
  | .ofNat m, .ofNat n => m.blt n
  | .ofNat _, .negSucc _ => false
  | .negSucc _, .ofNat _ => true
  | .negSucc m, .negSucc n => n.blt m

/-- `jsLtInt` is `<`. -/
theorem jsLtInt_eq_lt (a b : Int) : jsLtInt a b = true ↔ b - a > 0 := by
  cases a <;> cases b <;> simp [jsLtInt, Nat.blt_eq, Int.negSucc_eq] <;> omega

/-- `CPU.load` (cpu.js lines 651-653). -/
def load (B : Bus σ) (w : σ) (addr : Int) : Nat × σ :=
  if jsLtInt addr 0x2000 then (B.memRead w (jsAnd addr 0x7ff), w)
  else B.mmapLoad w addr

/-- `CPU.load16bit` (cpu.js lines 655-659); note the source's strict
`addr < 0x1fff` test. -/
def load16bit (B : Bus σ) (w : σ) (addr : Int) : Nat × σ :=
  if jsLtInt addr 0x1fff then
    (B.memRead w (jsAnd addr 0x7ff) |||
      (B.memRead w (jsAnd (addr + 1) 0x7ff)) <<< 8, w)
  else
    let r1 := B.mmapLoad w addr
    let r2 := B.mmapLoad r1.2 (addr + 1)
    (r1.1 ||| r2.1 <<< 8, r2.2)

/-- `CPU.write` (cpu.js lines 661-664). -/
def write (B : Bus σ) (w : σ) (addr : Int) (v : Nat) : σ :=
  if jsLtInt addr 0x2000 then B.memWrite w (jsAnd addr 0x7ff) v
  else B.mmapWrite w addr v

/-- `CPU.requestIrq` (cpu.js lines 666-670); IRQ types: 0 = normal,
1 = NMI, 2 = reset. -/
def requestIrq (s : CPUState) (ty : Nat) : CPUState :=
  if s.irqRequested ∧ ty = 0 then s
  else { s with irqRequested := true, irqType := some ty }

/-- `CPU.push` (cpu.js lines 672-675): write through the mapper at
`SP | 0x100`, then decrement `SP` masked to 8 bits. -/
def push (B : Bus σ) (s : CPUState) (w : σ) (value : Nat) : CPUState × σ :=
  let w1 := B.mmapWrite w ((s.REG_SP ||| 0x100 : Nat) : Int) value
  ({ s with REG_SP := jsAnd ((s.REG_SP : Int) - 1) 0xff }, w1)

/-- `CPU.pull` (cpu.js lines 677-680): increment `SP` masked to 8 bits,
then read through the mapper at `0x100 | SP`. -/
def pull (B : Bus σ) (s : CPUState) (w : σ) : Nat × CPUState × σ :=
  let sp := jsAnd ((s.REG_SP : Int) + 1) 0xff
  let r3 := B.mmapLoad w ((0x100 ||| sp : Nat) : Int)
  (r3.1, { s with REG_SP := sp }, r3.2)

/-- `CPU.haltCycles` (cpu.js lines 682-684). -/
def haltCycles (s : CPUState) (cycles : Nat) : CPUState :=
  { s with cyclesToHalt := s.cyclesToHalt + cycles }

/-- The status word as pushed by the interrupt gate, BRK and PHP
(cpu.js lines 124-132, 290-294, 419-423 — the three sites build the byte
with this same expression). -/
def statusPushByte (s : CPUState) : Nat :=
  s.F_CARRY ||| ((if s.F_ZERO = 0 then 1 else 0) <<< 1) |||
    (s.F_INTERRUPT <<< 2) ||| (s.F_DECIMAL <<< 3) ||| (s.F_BRK <<< 4) |||
    (s.F_NOTUSED <<< 5) ||| (s.F_OVERFLOW <<< 6) ||| (s.F_SIGN <<< 7)

/-- `CPU.doNonMaskableInterrupt` (cpu.js lines 686-697): the handler is
entered only when bit 7 of the mapper-visible `$2000` byte is set; the
`$2000` load itself always happens. -/
def doNonMaskableInterrupt (B : Bus σ) (s : CPUState) (w : σ) (status : Nat) :
    CPUState × σ :=
  let r4 := B.mmapLoad w 0x2000
  if r4.1 &&& 128 ≠ 0 then
    let s1 := { s with REG_PC_NEW := s.REG_PC_NEW + 1 }
    let r5 := push B s1 r4.2 (jsShr8And s1.REG_PC_NEW)
    let r6 := push B r5.1 r5.2 (jsAnd s1.REG_PC_NEW 0xff)
    let r7 := push B r6.1 r6.2 status
    let r8 := B.mmapLoad r7.2 0xfffa
    let r9 := B.mmapLoad r8.2 0xfffb
    ({ r7.1 with REG_PC_NEW := ((r8.1 ||| r9.1 <<< 8 : Nat) : Int) - 1 }, r9.2)
  else (s, r4.2)

/-- `CPU.doResetInterrupt` (cpu.js lines 699-703). -/
def doResetInterrupt (B : Bus σ) (s : CPUState) (w : σ) : CPUState × σ :=
  let r10 := B.mmapLoad w 0xfffc
  let r11 := B.mmapLoad r10.2 0xfffd
  ({ s with REG_PC_NEW := ((r10.1 ||| r11.1 <<< 8 : Nat) : Int) - 1 }, r11.2)

/-- `CPU.doIrq` (cpu.js lines 705-715). -/
def doIrq (B : Bus σ) (s : CPUState) (w : σ) (status : Nat) : CPUState × σ :=
  let s1 := { s with REG_PC_NEW := s.REG_PC_NEW + 1 }
  let r12 := push B s1 w (jsShr8And s1.REG_PC_NEW)
  let r13 := push B r12.1 r12.2 (jsAnd s1.REG_PC_NEW 0xff)
  let r14 := push B r13.1 r13.2 status
  let s5 := { r14.1 with F_INTERRUPT_NEW := 1, F_BRK_NEW := 0 }
  let r15 := B.mmapLoad r14.2 0xfffe
  let r16 := B.mmapLoad r15.2 0xffff
  ({ s5 with REG_PC_NEW := ((r15.1 ||| r16.1 <<< 8 : Nat) : Int) - 1 }, r16.2)

/-- The interrupt gate at the top of `CPU.emulate` (cpu.js lines 123-154):
when a request is pending, build the status byte, dispatch on the request
type (a normal IRQ is skipped while `F_INTERRUPT` is set; an NMI defers to
`doNonMaskableInterrupt`, which itself tests `$2000` bit 7), then commit
`REG_PC_NEW`/`F_INTERRUPT_NEW`/`F_BRK_NEW` and clear the request. -/
def emulateIrqPhase (B : Bus σ) (s : CPUState) (w : σ) : CPUState × σ :=
  if s.irqRequested then
    let temp := statusPushByte s
    let s1 := { s with REG_PC_NEW := s.REG_PC, F_INTERRUPT_NEW := s.F_INTERRUPT }
    let (s2, w2) :=
      match s1.irqType with
      | some 0 => if s1.F_INTERRUPT ≠ 0 then (s1, w) else doIrq B s1 w temp
      | some 1 => doNonMaskableInterrupt B s1 w temp
      | some 2 => doResetInterrupt B s1 w
      | _ => (s1, w)
    ({ s2 with
        REG_PC := s2.REG_PC_NEW, F_INTERRUPT := s2.F_INTERRUPT_NEW,
        F_BRK := s2.F_BRK_NEW, irqRequested := false }, w2)
  else (s, w)

end CPU

/-! ## The opcode table (`buildOpData`, cpu.js lines 753-947)

Addressing-mode and instruction identifiers as in the source, the packed
word layout of `setOp`, and the full list of `setOp` calls in source
order.  Unset opcodes keep the fill value `0xff`. -/

def ADDR_ZP : Nat := 0
def ADDR_REL : Nat := 1
def ADDR_IMP : Nat := 2
def ADDR_ABS : Nat := 3
def ADDR_ACC : Nat := 4
def ADDR_IMM : Nat := 5
def ADDR_ZPX : Nat := 6
def ADDR_ZPY : Nat := 7
def ADDR_ABSX : Nat := 8
def ADDR_ABSY : Nat := 9
def ADDR_PREIDXIND : Nat := 10
def ADDR_POSTIDXIND : Nat := 11
def ADDR_INDABS : Nat := 12

def INS_ADC : Nat := 0
def INS_AND : Nat := 1
def INS_ASL : Nat := 2
def INS_BCC : Nat := 3
def INS_BCS : Nat := 4
def INS_BEQ : Nat := 5
def INS_BIT : Nat := 6
def INS_BMI : Nat := 7
def INS_BNE : Nat := 8
def INS_BPL : Nat := 9
def INS_BRK : Nat := 10
def INS_BVC : Nat := 11
def INS_BVS : Nat := 12
def INS_CLC : Nat := 13
def INS_CLD : Nat := 14
def INS_CLI : Nat := 15
def INS_CLV : Nat := 16
def INS_CMP : Nat := 17
def INS_CPX : Nat := 18
def INS_CPY : Nat := 19
def INS_DEC : Nat := 20
def INS_DEX : Nat := 21
def INS_DEY : Nat := 22
def INS_EOR : Nat := 23
def INS_INC : Nat := 24
def INS_INX : Nat := 25
def INS_INY : Nat := 26
def INS_JMP : Nat := 27
def INS_JSR : Nat := 28
def INS_LDA : Nat := 29
def INS_LDX : Nat := 30
def INS_LDY : Nat := 31
def INS_LSR : Nat := 32
def INS_NOP : Nat := 33
def INS_ORA : Nat := 34
def INS_PHA : Nat := 35
def INS_PHP : Nat := 36
def INS_PLA : Nat := 37
def INS_PLP : Nat := 38
def INS_ROL : Nat := 39
def INS_ROR : Nat := 40
def INS_RTI : Nat := 41
def INS_RTS : Nat := 42
def INS_SBC : Nat := 43
def INS_SEC : Nat := 44
def INS_SED : Nat := 45
def INS_SEI : Nat := 46
def INS_STA : Nat := 47
def INS_STX : Nat := 48
def INS_STY : Nat := 49
def INS_TAX : Nat := 50
def INS_TAY : Nat := 51
def INS_TSX : Nat := 52
def INS_TXA : Nat := 53
def INS_TXS : Nat := 54
def INS_TYA : Nat := 55
def INS_ALR : Nat := 56
def INS_ANC : Nat := 57
def INS_ARR : Nat := 58
def INS_AXS : Nat := 59
def INS_LAX : Nat := 60
def INS_SAX : Nat := 61
def INS_DCP : Nat := 62
def INS_ISC : Nat := 63
def INS_RLA : Nat := 64
def INS_RRA : Nat := 65
def INS_SLO : Nat := 66
def INS_SRE : Nat := 67
def INS_SKB : Nat := 68
def INS_IGN : Nat := 69

/-- The word packed by `setOp` (cpu.js lines 774-776). -/
def setOpPack (inst addrMode size cycles : Nat) : Nat :=
  (inst &&& 0xff) ||| ((addrMode &&& 0xff) <<< 8) |||
    ((size &&& 0xff) <<< 16) ||| ((cycles &&& 0xff) <<< 24)

/-- All `setOp` calls of `buildOpData`, in source order, as
`(inst, opcode, addrMode, size, cycles)`. -/
def opEntries : List (Nat × Nat × Nat × Nat × Nat) := [
  (INS_ADC, 0x69, ADDR_IMM, 2, 2), (INS_ADC, 0x65, ADDR_ZP, 2, 3),
  (INS_ADC, 0x75, ADDR_ZPX, 2, 4), (INS_ADC, 0x6d, ADDR_ABS, 3, 4),
  (INS_ADC, 0x7d, ADDR_ABSX, 3, 4), (INS_ADC, 0x79, ADDR_ABSY, 3, 4),
  (INS_ADC, 0x61, ADDR_PREIDXIND, 2, 6), (INS_ADC, 0x71, ADDR_POSTIDXIND, 2, 5),
  (INS_AND, 0x29, ADDR_IMM, 2, 2), (INS_AND, 0x25, ADDR_ZP, 2, 3),
  (INS_AND, 0x35, ADDR_ZPX, 2, 4), (INS_AND, 0x2d, ADDR_ABS, 3, 4),
  (INS_AND, 0x3d, ADDR_ABSX, 3, 4), (INS_AND, 0x39, ADDR_ABSY, 3, 4),
  (INS_AND, 0x21, ADDR_PREIDXIND, 2, 6), (INS_AND, 0x31, ADDR_POSTIDXIND, 2, 5),
  (INS_ASL, 0x0a, ADDR_ACC, 1, 2), (INS_ASL, 0x06, ADDR_ZP, 2, 5),
  (INS_ASL, 0x16, ADDR_ZPX, 2, 6), (INS_ASL, 0x0e, ADDR_ABS, 3, 6),
  (INS_ASL, 0x1e, ADDR_ABSX, 3, 7),
  (INS_BCC, 0x90, ADDR_REL, 2, 2), (INS_BCS, 0xb0, ADDR_REL, 2, 2),
  (INS_BEQ, 0xf0, ADDR_REL, 2, 2), (INS_BMI, 0x30, ADDR_REL, 2, 2),
  (INS_BNE, 0xd0, ADDR_REL, 2, 2), (INS_BPL, 0x10, ADDR_REL, 2, 2),
  (INS_BVC, 0x50, ADDR_REL, 2, 2), (INS_BVS, 0x70, ADDR_REL, 2, 2),
  (INS_BIT, 0x24, ADDR_ZP, 2, 3), (INS_BIT, 0x2c, ADDR_ABS, 3, 4),
  (INS_BRK, 0x00, ADDR_IMP, 1, 7),
  (INS_CLC, 0x18, ADDR_IMP, 1, 2), (INS_CLD, 0xd8, ADDR_IMP, 1, 2),
  (INS_CLI, 0x58, ADDR_IMP, 1, 2), (INS_CLV, 0xb8, ADDR_IMP, 1, 2),
  (INS_SEC, 0x38, ADDR_IMP, 1, 2), (INS_SED, 0xf8, ADDR_IMP, 1, 2),
  (INS_SEI, 0x78, ADDR_IMP, 1, 2),
  (INS_CMP, 0xc9, ADDR_IMM, 2, 2), (INS_CMP, 0xc5, ADDR_ZP, 2, 3),
  (INS_CMP, 0xd5, ADDR_ZPX, 2, 4), (INS_CMP, 0xcd, ADDR_ABS, 3, 4),
  (INS_CMP, 0xdd, ADDR_ABSX, 3, 4), (INS_CMP, 0xd9, ADDR_ABSY, 3, 4),
  (INS_CMP, 0xc1, ADDR_PREIDXIND, 2, 6), (INS_CMP, 0xd1, ADDR_POSTIDXIND, 2, 5),
  (INS_CPX, 0xe0, ADDR_IMM, 2, 2), (INS_CPX, 0xe4, ADDR_ZP, 2, 3),
  (INS_CPX, 0xec, ADDR_ABS, 3, 4), (INS_CPY, 0xc0, ADDR_IMM, 2, 2),
  (INS_CPY, 0xc4, ADDR_ZP, 2, 3), (INS_CPY, 0xcc, ADDR_ABS, 3, 4),
  (INS_DEC, 0xc6, ADDR_ZP, 2, 5), (INS_DEC, 0xd6, ADDR_ZPX, 2, 6),
  (INS_DEC, 0xce, ADDR_ABS, 3, 6), (INS_DEC, 0xde, ADDR_ABSX, 3, 7),
  (INS_DEX, 0xca, ADDR_IMP, 1, 2), (INS_DEY, 0x88, ADDR_IMP, 1, 2),
  (INS_EOR, 0x49, ADDR_IMM, 2, 2), (INS_EOR, 0x45, ADDR_ZP, 2, 3),
  (INS_EOR, 0x55, ADDR_ZPX, 2, 4), (INS_EOR, 0x4d, ADDR_ABS, 3, 4),
  (INS_EOR, 0x5d, ADDR_ABSX, 3, 4), (INS_EOR, 0x59, ADDR_ABSY, 3, 4),
  (INS_EOR, 0x41, ADDR_PREIDXIND, 2, 6), (INS_EOR, 0x51, ADDR_POSTIDXIND, 2, 5),
  (INS_INC, 0xe6, ADDR_ZP, 2, 5), (INS_INC, 0xf6, ADDR_ZPX, 2, 6),
  (INS_INC, 0xee, ADDR_ABS, 3, 6), (INS_INC, 0xfe, ADDR_ABSX, 3, 7),
  (INS_INX, 0xe8, ADDR_IMP, 1, 2), (INS_INY, 0xc8, ADDR_IMP, 1, 2),
  (INS_JMP, 0x4c, ADDR_ABS, 3, 3), (INS_JMP, 0x6c, ADDR_INDABS, 3, 5),
  (INS_JSR, 0x20, ADDR_ABS, 3, 6),
  (INS_LDA, 0xa9, ADDR_IMM, 2, 2), (INS_LDA, 0xa5, ADDR_ZP, 2, 3),
  (INS_LDA, 0xb5, ADDR_ZPX, 2, 4), (INS_LDA, 0xad, ADDR_ABS, 3, 4),
  (INS_LDA, 0xbd, ADDR_ABSX, 3, 4), (INS_LDA, 0xb9, ADDR_ABSY, 3, 4),
  (INS_LDA, 0xa1, ADDR_PREIDXIND, 2, 6), (INS_LDA, 0xb1, ADDR_POSTIDXIND, 2, 5),
  (INS_LDX, 0xa2, ADDR_IMM, 2, 2), (INS_LDX, 0xa6, ADDR_ZP, 2, 3),
  (INS_LDX, 0xb6, ADDR_ZPY, 2, 4), (INS_LDX, 0xae, ADDR_ABS, 3, 4),
  (INS_LDX, 0xbe, ADDR_ABSY, 3, 4),
  (INS_LDY, 0xa0, ADDR_IMM, 2, 2), (INS_LDY, 0xa4, ADDR_ZP, 2, 3),
  (INS_LDY, 0xb4, ADDR_ZPX, 2, 4), (INS_LDY, 0xac, ADDR_ABS, 3, 4),
  (INS_LDY, 0xbc, ADDR_ABSX, 3, 4),
  (INS_LSR, 0x4a, ADDR_ACC, 1, 2), (INS_LSR, 0x46, ADDR_ZP, 2, 5),
  (INS_LSR, 0x56, ADDR_ZPX, 2, 6), (INS_LSR, 0x4e, ADDR_ABS, 3, 6),
  (INS_LSR, 0x5e, ADDR_ABSX, 3, 7),
  (INS_NOP, 0x1a, ADDR_IMP, 1, 2), (INS_NOP, 0x3a, ADDR_IMP, 1, 2),
  (INS_NOP, 0x5a, ADDR_IMP, 1, 2), (INS_NOP, 0x7a, ADDR_IMP, 1, 2),
  (INS_NOP, 0xda, ADDR_IMP, 1, 2), (INS_NOP, 0xea, ADDR_IMP, 1, 2),
  (INS_NOP, 0xfa, ADDR_IMP, 1, 2),
  (INS_ORA, 0x09, ADDR_IMM, 2, 2), (INS_ORA, 0x05, ADDR_ZP, 2, 3),
  (INS_ORA, 0x15, ADDR_ZPX, 2, 4), (INS_ORA, 0x0d, ADDR_ABS, 3, 4),
  (INS_ORA, 0x1d, ADDR_ABSX, 3, 4), (INS_ORA, 0x19, ADDR_ABSY, 3, 4),
  (INS_ORA, 0x01, ADDR_PREIDXIND, 2, 6), (INS_ORA, 0x11, ADDR_POSTIDXIND, 2, 5),
  (INS_PHA, 0x48, ADDR_IMP, 1, 3), (INS_PHP, 0x08, ADDR_IMP, 1, 3),
  (INS_PLA, 0x68, ADDR_IMP, 1, 4), (INS_PLP, 0x28, ADDR_IMP, 1, 4),
  (INS_ROL, 0x2a, ADDR_ACC, 1, 2), (INS_ROL, 0x26, ADDR_ZP, 2, 5),
  (INS_ROL, 0x36, ADDR_ZPX, 2, 6), (INS_ROL, 0x2e, ADDR_ABS, 3, 6),
  (INS_ROL, 0x3e, ADDR_ABSX, 3, 7),
  (INS_ROR, 0x6a, ADDR_ACC, 1, 2), (INS_ROR, 0x66, ADDR_ZP, 2, 5),
  (INS_ROR, 0x76, ADDR_ZPX, 2, 6), (INS_ROR, 0x6e, ADDR_ABS, 3, 6),
  (INS_ROR, 0x7e, ADDR_ABSX, 3, 7),
  (INS_RTI, 0x40, ADDR_IMP, 1, 6), (INS_RTS, 0x60, ADDR_IMP, 1, 6),
  (INS_SBC, 0xe9, ADDR_IMM, 2, 2), (INS_SBC, 0xe5, ADDR_ZP, 2, 3),
  (INS_SBC, 0xf5, ADDR_ZPX, 2, 4), (INS_SBC, 0xed, ADDR_ABS, 3, 4),
  (INS_SBC, 0xfd, ADDR_ABSX, 3, 4), (INS_SBC, 0xf9, ADDR_ABSY, 3, 4),
  (INS_SBC, 0xe1, ADDR_PREIDXIND, 2, 6), (INS_SBC, 0xf1, ADDR_POSTIDXIND, 2, 5),
  (INS_STA, 0x85, ADDR_ZP, 2, 3), (INS_STA, 0x95, ADDR_ZPX, 2, 4),
  (INS_STA, 0x8d, ADDR_ABS, 3, 4), (INS_STA, 0x9d, ADDR_ABSX, 3, 5),
  (INS_STA, 0x99, ADDR_ABSY, 3, 5), (INS_STA, 0x81, ADDR_PREIDXIND, 2, 6),
  (INS_STA, 0x91, ADDR_POSTIDXIND, 2, 6),
  (INS_STX, 0x86, ADDR_ZP, 2, 3), (INS_STX, 0x96, ADDR_ZPY, 2, 4),
  (INS_STX, 0x8e, ADDR_ABS, 3, 4), (INS_STY, 0x84, ADDR_ZP, 2, 3),
  (INS_STY, 0x94, ADDR_ZPX, 2, 4), (INS_STY, 0x8c, ADDR_ABS, 3, 4),
  (INS_TAX, 0xaa, ADDR_IMP, 1, 2), (INS_TAY, 0xa8, ADDR_IMP, 1, 2),
  (INS_TSX, 0xba, ADDR_IMP, 1, 2), (INS_TXA, 0x8a, ADDR_IMP, 1, 2),
  (INS_TXS, 0x9a, ADDR_IMP, 1, 2), (INS_TYA, 0x98, ADDR_IMP, 1, 2),
  (INS_ALR, 0x4b, ADDR_IMM, 2, 2), (INS_ANC, 0x0b, ADDR_IMM, 2, 2),
  (INS_ANC, 0x2b, ADDR_IMM, 2, 2), (INS_ARR, 0x6b, ADDR_IMM, 2, 2),
  (INS_AXS, 0xcb, ADDR_IMM, 2, 2),
  (INS_LAX, 0xa3, ADDR_PREIDXIND, 2, 6), (INS_LAX, 0xa7, ADDR_ZP, 2, 3),
  (INS_LAX, 0xaf, ADDR_ABS, 3, 4), (INS_LAX, 0xb3, ADDR_POSTIDXIND, 2, 5),
  (INS_LAX, 0xb7, ADDR_ZPY, 2, 4), (INS_LAX, 0xbf, ADDR_ABSY, 3, 4),
  (INS_SAX, 0x83, ADDR_PREIDXIND, 2, 6), (INS_SAX, 0x87, ADDR_ZP, 2, 3),
  (INS_SAX, 0x8f, ADDR_ABS, 3, 4), (INS_SAX, 0x97, ADDR_ZPY, 2, 4),
  (INS_DCP, 0xc3, ADDR_PREIDXIND, 2, 8), (INS_DCP, 0xc7, ADDR_ZP, 2, 5),
  (INS_DCP, 0xcf, ADDR_ABS, 3, 6), (INS_DCP, 0xd3, ADDR_POSTIDXIND, 2, 8),
  (INS_DCP, 0xd7, ADDR_ZPX, 2, 6), (INS_DCP, 0xdb, ADDR_ABSY, 3, 7),
  (INS_DCP, 0xdf, ADDR_ABSX, 3, 7),
  (INS_ISC, 0xe3, ADDR_PREIDXIND, 2, 8), (INS_ISC, 0xe7, ADDR_ZP, 2, 5),
  (INS_ISC, 0xef, ADDR_ABS, 3, 6), (INS_ISC, 0xf3, ADDR_POSTIDXIND, 2, 8),
  (INS_ISC, 0xf7, ADDR_ZPX, 2, 6), (INS_ISC, 0xfb, ADDR_ABSY, 3, 7),
  (INS_ISC, 0xff, ADDR_ABSX, 3, 7),
  (INS_RLA, 0x23, ADDR_PREIDXIND, 2, 8), (INS_RLA, 0x27, ADDR_ZP, 2, 5),
  (INS_RLA, 0x2f, ADDR_ABS, 3, 6), (INS_RLA, 0x33, ADDR_POSTIDXIND, 2, 8),
  (INS_RLA, 0x37, ADDR_ZPX, 2, 6), (INS_RLA, 0x3b, ADDR_ABSY, 3, 7),
  (INS_RLA, 0x3f, ADDR_ABSX, 3, 7),
  (INS_RRA, 0x63, ADDR_PREIDXIND, 2, 8), (INS_RRA, 0x67, ADDR_ZP, 2, 5),
  (INS_RRA, 0x6f, ADDR_ABS, 3, 6), (INS_RRA, 0x73, ADDR_POSTIDXIND, 2, 8),
  (INS_RRA, 0x77, ADDR_ZPX, 2, 6), (INS_RRA, 0x7b, ADDR_ABSY, 3, 7),
  (INS_RRA, 0x7f, ADDR_ABSX, 3, 7),
  (INS_SLO, 0x03, ADDR_PREIDXIND, 2, 8), (INS_SLO, 0x07, ADDR_ZP, 2, 5),
  (INS_SLO, 0x0f, ADDR_ABS, 3, 6), (INS_SLO, 0x13, ADDR_POSTIDXIND, 2, 8),
  (INS_SLO, 0x17, ADDR_ZPX, 2, 6), (INS_SLO, 0x1b, ADDR_ABSY, 3, 7),
  (INS_SLO, 0x1f, ADDR_ABSX, 3, 7),
  (INS_SRE, 0x43, ADDR_PREIDXIND, 2, 8), (INS_SRE, 0x47, ADDR_ZP, 2, 5),
  (INS_SRE, 0x4f, ADDR_ABS, 3, 6), (INS_SRE, 0x53, ADDR_POSTIDXIND, 2, 8),
  (INS_SRE, 0x57, ADDR_ZPX, 2, 6), (INS_SRE, 0x5b, ADDR_ABSY, 3, 7),
  (INS_SRE, 0x5f, ADDR_ABSX, 3, 7),
  (INS_SKB, 0x80, ADDR_IMM, 2, 2), (INS_SKB, 0x82, ADDR_IMM, 2, 2),
  (INS_SKB, 0x89, ADDR_IMM, 2, 2), (INS_SKB, 0xc2, ADDR_IMM, 2, 2),
  (INS_SKB, 0xe2, ADDR_IMM, 2, 2),
  (INS_IGN, 0x0c, ADDR_ABS, 3, 4), (INS_IGN, 0x1c, ADDR_ABSX, 3, 4),
  (INS_IGN, 0x3c, ADDR_ABSX, 3, 4), (INS_IGN, 0x5c, ADDR_ABSX, 3, 4),
  (INS_IGN, 0x7c, ADDR_ABSX, 3, 4), (INS_IGN, 0xdc, ADDR_ABSX, 3, 4),
  (INS_IGN, 0xfc, ADDR_ABSX, 3, 4), (INS_IGN, 0x04, ADDR_ZP, 2, 3),
  (INS_IGN, 0x44, ADDR_ZP, 2, 3), (INS_IGN, 0x64, ADDR_ZP, 2, 3),
  (INS_IGN, 0x14, ADDR_ZPX, 2, 4), (INS_IGN, 0x34, ADDR_ZPX, 2, 4),
  (INS_IGN, 0x54, ADDR_ZPX, 2, 4), (INS_IGN, 0x74, ADDR_ZPX, 2, 4),
  (INS_IGN, 0xd4, ADDR_ZPX, 2, 4), (INS_IGN, 0xf4, ADDR_ZPX, 2, 4)]

/-- The opcode table: `Uint32Array(256)` filled with `0xff` then written by
the `setOp` calls above.  For an out-of-range index (impossible with the
real 8-bit memory map, but the bus is abstract) the JavaScript lookup gives
`undefined`, and every coercion `undefined >> k` / `undefined & m` that
`emulate` applies to it yields `0`; the embedding returns `0` there so the
derived fields coincide. -/
def OPDATA (i : Nat) : Nat :=
  if i < 256 then
    (opEntries.foldl
      (fun t e => fun x =>
        if x = e.2.1 then setOpPack e.1 e.2.2.1 e.2.2.2.1 e.2.2.2.2 else t x)
      (fun _ => 0xff)) i
  else 0

namespace CPU

/-- The raw-RAM low-byte index of the `JMP (abs)` vector fetch
(cpu.js line 205, `mem[addr & 0x7ff]`). -/
def indAbsLowRamIndex (a : Nat) : Nat := a &&& 0x7ff

/-- The high-byte address of the `JMP (abs)` vector fetch (cpu.js
lines 205 and 207): same page as the pointer, low byte incremented with
wrap-around inside the page. -/
def indAbsHighAddr (a : Nat) : Nat :=
  (a &&& 0xff00) ||| (((a &&& 0xff) + 1) &&& 0xff)

/-- The `ADDR_INDABS` vector fetch of `CPU.emulate` (cpu.js lines 202-209):
`a` is the 16-bit pointer operand; below `0x1fff` the bytes come from the
raw `mem` array (only the low-byte index is mirrored with `& 0x7ff`),
otherwise from the mapper. -/
def jmpIndirectVector (B : Bus σ) (w : σ) (a : Nat) : Nat × σ :=
  if a < 0x1fff then
    (B.memRead w (indAbsLowRamIndex a) |||
      (B.memRead w (indAbsHighAddr a)) <<< 8, w)
  else
    let r17 := B.mmapLoad w (a : Int)
    let r18 := B.mmapLoad r17.2 ((indAbsHighAddr a : Nat) : Int)
    (r17.1 ||| r18.1 <<< 8, r18.2)

/-- The addressing-mode switch of `CPU.emulate` (cpu.js lines 169-210):
given the already-incremented local `REG_PC` (`pc1`) and the instruction
address `opaddr`, produce the (pre-mask) effective address, the
page-crossing `cycleAdd`, and the world after the operand fetches.
`addr` starts at `0` and unlisted modes leave it there. -/
def fetchAddress (B : Bus σ) (s : CPUState) (w : σ) (addrMode : Nat)
    (opaddr pc1 : Int) : Int × Nat × σ :=
  if addrMode = 0 then
    -- ADDR_ZP
    let r19 := load B w (opaddr + 2)
    ((r19.1 : Int), 0, r19.2)
  else if addrMode = 1 then
    -- ADDR_REL: addr += addr < 0x80 ? REG_PC : REG_PC - 256
    let r20 := load B w (opaddr + 2)
    ((r20.1 : Int) + (if r20.1 < 0x80 then pc1 else pc1 - 256), 0, r20.2)
  else if addrMode = 2 then
    -- ADDR_IMP
    (0, 0, w)
  else if addrMode = 3 then
    -- ADDR_ABS
    let r21 := load16bit B w (opaddr + 2)
    ((r21.1 : Int), 0, r21.2)
  else if addrMode = 4 then
    -- ADDR_ACC
    ((s.REG_ACC : Int), 0, w)
  else if addrMode = 5 then
    -- ADDR_IMM
    (pc1, 0, w)
  else if addrMode = 6 then
    -- ADDR_ZPX
    let r22 := load B w (opaddr + 2)
    ((((r22.1 + s.REG_X) &&& 0xff : Nat) : Int), 0, r22.2)
  else if addrMode = 7 then
    -- ADDR_ZPY
    let r23 := load B w (opaddr + 2)
    ((((r23.1 + s.REG_Y) &&& 0xff : Nat) : Int), 0, r23.2)
  else if addrMode = 8 then
    -- ADDR_ABSX
    let r24 := load16bit B w (opaddr + 2)
    let ca := if (r24.1 &&& 0xff00) ≠ ((r24.1 + s.REG_X) &&& 0xff00) then 1 else 0
    (((r24.1 + s.REG_X : Nat) : Int), ca, r24.2)
  else if addrMode = 9 then
    -- ADDR_ABSY
    let r25 := load16bit B w (opaddr + 2)
    let ca := if (r25.1 &&& 0xff00) ≠ ((r25.1 + s.REG_Y) &&& 0xff00) then 1 else 0
    (((r25.1 + s.REG_Y : Nat) : Int), ca, r25.2)
  else if addrMode = 10 then
    -- ADDR_PREIDXIND
    let r26 := load B w (opaddr + 2)
    let ca := if (r26.1 &&& 0xff00) ≠ ((r26.1 + s.REG_X) &&& 0xff00) then 1 else 0
    let r27 := load16bit B r26.2 (((r26.1 + s.REG_X) &&& 0xff : Nat) : Int)
    ((r27.1 : Int), ca, r27.2)
  else if addrMode = 11 then
    -- ADDR_POSTIDXIND
    let r28 := load B w (opaddr + 2)
    let r29 := load16bit B r28.2 (r28.1 : Int)
    let ca := if (r29.1 &&& 0xff00) ≠ ((r29.1 + s.REG_Y) &&& 0xff00) then 1 else 0
    (((r29.1 + s.REG_Y : Nat) : Int), ca, r29.2)
  else if addrMode = 12 then
    -- ADDR_INDABS
    let r30 := load16bit B w (opaddr + 2)
    let r31 := jmpIndirectVector B r30.2 r30.1
    ((r31.1 : Int), 0, r31.2)
  else
    (0, 0, w)

/-- Case 0 (ADC) of the instruction switch of `CPU.emulate`. -/
def execADC (B : Bus σ) (s : CPUState) (w : σ)
    (addrMode addr : Nat) (opaddr : Int) (cycleCount cycleAdd : Nat) :
    CPUState × σ × Nat :=
  -- ADC
  let r32 := load B w (addr : Int)
  let temp := s.REG_ACC + r32.1 + s.F_CARRY
  ({ s with
      F_OVERFLOW := if ((s.REG_ACC ^^^ r32.1) &&& 0x80) = 0 ∧
          ((s.REG_ACC ^^^ temp) &&& 0x80) ≠ 0 then 1 else 0,
      F_CARRY := if temp > 255 then 1 else 0,
      F_SIGN := (temp >>> 7) &&& 1,
      F_ZERO := temp &&& 0xff,
      REG_ACC := temp &&& 0xff }, r32.2, cycleCount + cycleAdd)

/-- Case 1 (AND) of the instruction switch of `CPU.emulate`. -/
def execAND (B : Bus σ) (s : CPUState) (w : σ)
    (addrMode addr : Nat) (opaddr : Int) (cycleCount cycleAdd : Nat) :
    CPUState × σ × Nat :=
  -- AND
  let r33 := load B w (addr : Int)
  let acc := s.REG_ACC &&& r33.1
  ({ s with REG_ACC := acc, F_SIGN := (acc >>> 7) &&& 1, F_ZERO := acc },
    r33.2, if addrMode ≠ 11 then cycleCount + cycleAdd else cycleCount)

/-- Case 2 (ASL) of the instruction switch of `CPU.emulate`. -/
def execASL (B : Bus σ) (s : CPUState) (w : σ)
    (addrMode addr : Nat) (opaddr : Int) (cycleCount cycleAdd : Nat) :
    CPUState × σ × Nat :=
  -- ASL
  if addrMode = 4 then
    let acc := (s.REG_ACC <<< 1) &&& 0xff
    ({ s with
        F_CARRY := (s.REG_ACC >>> 7) &&& 1, REG_ACC := acc,
        F_SIGN := (acc >>> 7) &&& 1, F_ZERO := acc }, w, cycleCount)
  else
    let r34 := load B w (addr : Int)
    let temp := (r34.1 <<< 1) &&& 0xff
    let w2 := write B r34.2 (addr : Int) temp
    ({ s with
        F_CARRY := (r34.1 >>> 7) &&& 1, F_SIGN := (temp >>> 7) &&& 1,
        F_ZERO := temp }, w2, cycleCount)

/-- Case 3 (BCC) of the instruction switch of `CPU.emulate`. -/
def execBCC (B : Bus σ) (s : CPUState) (w : σ)
    (addrMode addr : Nat) (opaddr : Int) (cycleCount cycleAdd : Nat) :
    CPUState × σ × Nat :=
  -- BCC
  if s.F_CARRY = 0 then
    ({ s with REG_PC := (addr : Int) }, w,
      cycleCount + (if jsAnd opaddr 0xff00 ≠ (addr &&& 0xff00) then 2 else 1))
  else (s, w, cycleCount)

/-- Case 4 (BCS) of the instruction switch of `CPU.emulate`. -/
def execBCS (B : Bus σ) (s : CPUState) (w : σ)
    (addrMode addr : Nat) (opaddr : Int) (cycleCount cycleAdd : Nat) :
    CPUState × σ × Nat :=
  -- BCS
  if s.F_CARRY = 1 then
    ({ s with REG_PC := (addr : Int) }, w,
      cycleCount + (if jsAnd opaddr 0xff00 ≠ (addr &&& 0xff00) then 2 else 1))
  else (s, w, cycleCount)

/-- Case 5 (BEQ) of the instruction switch of `CPU.emulate`. -/
def execBEQ (B : Bus σ) (s : CPUState) (w : σ)
    (addrMode addr : Nat) (opaddr : Int) (cycleCount cycleAdd : Nat) :
    CPUState × σ × Nat :=
  -- BEQ
  if s.F_ZERO = 0 then
    ({ s with REG_PC := (addr : Int) }, w,
      cycleCount + (if jsAnd opaddr 0xff00 ≠ (addr &&& 0xff00) then 2 else 1))
  else (s, w, cycleCount)

/-- Case 6 (BIT) of the instruction switch of `CPU.emulate`. -/
def execBIT (B : Bus σ) (s : CPUState) (w : σ)
    (addrMode addr : Nat) (opaddr : Int) (cycleCount cycleAdd : Nat) :
    CPUState × σ × Nat :=
  -- BIT
  let r35 := load B w (addr : Int)
  ({ s with
      F_SIGN := (r35.1 >>> 7) &&& 1, F_OVERFLOW := (r35.1 >>> 6) &&& 1,
      F_ZERO := r35.1 &&& s.REG_ACC }, r35.2, cycleCount)

/-- Case 7 (BMI) of the instruction switch of `CPU.emulate`. -/
def execBMI (B : Bus σ) (s : CPUState) (w : σ)
    (addrMode addr : Nat) (opaddr : Int) (cycleCount cycleAdd : Nat) :
    CPUState × σ × Nat :=
  -- BMI: the taken branch adds one cycle, with no page-cross test
  if s.F_SIGN = 1 then
    ({ s with REG_PC := (addr : Int) }, w, cycleCount + 1)
  else (s, w, cycleCount)

/-- Case 8 (BNE) of the instruction switch of `CPU.emulate`. -/
def execBNE (B : Bus σ) (s : CPUState) (w : σ)
    (addrMode addr : Nat) (opaddr : Int) (cycleCount cycleAdd : Nat) :
    CPUState × σ × Nat :=
  -- BNE
  if s.F_ZERO ≠ 0 then
    ({ s with REG_PC := (addr : Int) }, w,
      cycleCount + (if jsAnd opaddr 0xff00 ≠ (addr &&& 0xff00) then 2 else 1))
  else (s, w, cycleCount)

/-- Case 9 (BPL) of the instruction switch of `CPU.emulate`. -/
def execBPL (B : Bus σ) (s : CPUState) (w : σ)
    (addrMode addr : Nat) (opaddr : Int) (cycleCount cycleAdd : Nat) :
    CPUState × σ × Nat :=
  -- BPL
  if s.F_SIGN = 0 then
    ({ s with REG_PC := (addr : Int) }, w,
      cycleCount + (if jsAnd opaddr 0xff00 ≠ (addr &&& 0xff00) then 2 else 1))
  else (s, w, cycleCount)

/-- Case 10 (BRK) of the instruction switch of `CPU.emulate`. -/
def execBRK (B : Bus σ) (s : CPUState) (w : σ)
    (addrMode addr : Nat) (opaddr : Int) (cycleCount cycleAdd : Nat) :
    CPUState × σ × Nat :=
  -- BRK
  let s1 := { s with REG_PC := s.REG_PC + 2 }
  let r36 := push B s1 w (jsShr8And s1.REG_PC)
  let r37 := push B r36.1 r36.2 (jsAnd s1.REG_PC 0xff)
  let s4 := { r37.1 with F_BRK := 1 }
  let r38 := push B s4 r37.2 (statusPushByte s4)
  let s6 := { r38.1 with F_INTERRUPT := 1 }
  let r39 := load16bit B r38.2 0xfffe
  ({ s6 with REG_PC := (r39.1 : Int) - 1 }, r39.2, cycleCount)

/-- Case 11 (BVC) of the instruction switch of `CPU.emulate`. -/
def execBVC (B : Bus σ) (s : CPUState) (w : σ)
    (addrMode addr : Nat) (opaddr : Int) (cycleCount cycleAdd : Nat) :
    CPUState × σ × Nat :=
  -- BVC
  if s.F_OVERFLOW = 0 then
    ({ s with REG_PC := (addr : Int) }, w,
      cycleCount + (if jsAnd opaddr 0xff00 ≠ (addr &&& 0xff00) then 2 else 1))
  else (s, w, cycleCount)

/-- Case 12 (BVS) of the instruction switch of `CPU.emulate`. -/
def execBVS (B : Bus σ) (s : CPUState) (w : σ)
    (addrMode addr : Nat) (opaddr : Int) (cycleCount cycleAdd : Nat) :
    CPUState × σ × Nat :=
  -- BVS
  if s.F_OVERFLOW = 1 then
    ({ s with REG_PC := (addr : Int) }, w,
      cycleCount + (if jsAnd opaddr 0xff00 ≠ (addr &&& 0xff00) then 2 else 1))
  else (s, w, cycleCount)

/-- Case 13 (CLC) of the instruction switch of `CPU.emulate`. -/
def execCLC (B : Bus σ) (s : CPUState) (w : σ)
    (addrMode addr : Nat) (opaddr : Int) (cycleCount cycleAdd : Nat) :
    CPUState × σ × Nat :=
  ({ s with F_CARRY := 0 }, w, cycleCount)      -- CLC

/-- Case 14 (CLD) of the instruction switch of `CPU.emulate`. -/
def execCLD (B : Bus σ) (s : CPUState) (w : σ)
    (addrMode addr : Nat) (opaddr : Int) (cycleCount cycleAdd : Nat) :
    CPUState × σ × Nat :=
  ({ s with F_DECIMAL := 0 }, w, cycleCount)    -- CLD

/-- Case 15 (CLI) of the instruction switch of `CPU.emulate`. -/
def execCLI (B : Bus σ) (s : CPUState) (w : σ)
    (addrMode addr : Nat) (opaddr : Int) (cycleCount cycleAdd : Nat) :
    CPUState × σ × Nat :=
  ({ s with F_INTERRUPT := 0 }, w, cycleCount)  -- CLI

/-- Case 16 (CLV) of the instruction switch of `CPU.emulate`. -/
def execCLV (B : Bus σ) (s : CPUState) (w : σ)
    (addrMode addr : Nat) (opaddr : Int) (cycleCount cycleAdd : Nat) :
    CPUState × σ × Nat :=
  ({ s with F_OVERFLOW := 0 }, w, cycleCount)   -- CLV

/-- Case 17 (CMP) of the instruction switch of `CPU.emulate`. -/
def execCMP (B : Bus σ) (s : CPUState) (w : σ)
    (addrMode addr : Nat) (opaddr : Int) (cycleCount cycleAdd : Nat) :
    CPUState × σ × Nat :=
  -- CMP
  let r40 := load B w (addr : Int)
  let temp : Int := (s.REG_ACC : Int) - r40.1
  ({ s with
      F_CARRY := if temp ≥ 0 then 1 else 0, F_SIGN := jsBit temp 7,
      F_ZERO := jsAnd temp 0xff }, r40.2, cycleCount + cycleAdd)

/-- Case 18 (CPX) of the instruction switch of `CPU.emulate`. -/
def execCPX (B : Bus σ) (s : CPUState) (w : σ)
    (addrMode addr : Nat) (opaddr : Int) (cycleCount cycleAdd : Nat) :
    CPUState × σ × Nat :=
  -- CPX
  let r41 := load B w (addr : Int)
  let temp : Int := (s.REG_X : Int) - r41.1
  ({ s with
      F_CARRY := if temp ≥ 0 then 1 else 0, F_SIGN := jsBit temp 7,
      F_ZERO := jsAnd temp 0xff }, r41.2, cycleCount)

/-- Case 19 (CPY) of the instruction switch of `CPU.emulate`. -/
def execCPY (B : Bus σ) (s : CPUState) (w : σ)
    (addrMode addr : Nat) (opaddr : Int) (cycleCount cycleAdd : Nat) :
    CPUState × σ × Nat :=
  -- CPY
  let r42 := load B w (addr : Int)
  let temp : Int := (s.REG_Y : Int) - r42.1
  ({ s with
      F_CARRY := if temp ≥ 0 then 1 else 0, F_SIGN := jsBit temp 7,
      F_ZERO := jsAnd temp 0xff }, r42.2, cycleCount)

/-- Case 20 (DEC) of the instruction switch of `CPU.emulate`. -/
def execDEC (B : Bus σ) (s : CPUState) (w : σ)
    (addrMode addr : Nat) (opaddr : Int) (cycleCount cycleAdd : Nat) :
    CPUState × σ × Nat :=
  -- DEC
  let r43 := load B w (addr : Int)
  let temp := jsAnd ((r43.1 : Int) - 1) 0xff
  let w2 := write B r43.2 (addr : Int) temp
  ({ s with F_SIGN := (temp >>> 7) &&& 1, F_ZERO := temp }, w2, cycleCount)

/-- Case 21 (DEX) of the instruction switch of `CPU.emulate`. -/
def execDEX (B : Bus σ) (s : CPUState) (w : σ)
    (addrMode addr : Nat) (opaddr : Int) (cycleCount cycleAdd : Nat) :
    CPUState × σ × Nat :=
  -- DEX
  let x := jsAnd ((s.REG_X : Int) - 1) 0xff
  ({ s with REG_X := x, F_SIGN := (x >>> 7) &&& 1, F_ZERO := x }, w, cycleCount)

/-- Case 22 (DEY) of the instruction switch of `CPU.emulate`. -/
def execDEY (B : Bus σ) (s : CPUState) (w : σ)
    (addrMode addr : Nat) (opaddr : Int) (cycleCount cycleAdd : Nat) :
    CPUState × σ × Nat :=
  -- DEY
  let y := jsAnd ((s.REG_Y : Int) - 1) 0xff
  ({ s with REG_Y := y, F_SIGN := (y >>> 7) &&& 1, F_ZERO := y }, w, cycleCount)

/-- Case 23 (EOR) of the instruction switch of `CPU.emulate`. -/
def execEOR (B : Bus σ) (s : CPUState) (w : σ)
    (addrMode addr : Nat) (opaddr : Int) (cycleCount cycleAdd : Nat) :
    CPUState × σ × Nat :=
  -- EOR
  let r44 := load B w (addr : Int)
  let acc := (r44.1 ^^^ s.REG_ACC) &&& 0xff
  ({ s with REG_ACC := acc, F_SIGN := (acc >>> 7) &&& 1, F_ZERO := acc },
    r44.2, cycleCount + cycleAdd)

/-- Case 24 (INC) of the instruction switch of `CPU.emulate`. -/
def execINC (B : Bus σ) (s : CPUState) (w : σ)
    (addrMode addr : Nat) (opaddr : Int) (cycleCount cycleAdd : Nat) :
    CPUState × σ × Nat :=
  -- INC
  let r45 := load B w (addr : Int)
  let temp := (r45.1 + 1) &&& 0xff
  let w2 := write B r45.2 (addr : Int) temp
  ({ s with F_SIGN := (temp >>> 7) &&& 1, F_ZERO := temp }, w2, cycleCount)

/-- Case 25 (INX) of the instruction switch of `CPU.emulate`. -/
def execINX (B : Bus σ) (s : CPUState) (w : σ)
    (addrMode addr : Nat) (opaddr : Int) (cycleCount cycleAdd : Nat) :
    CPUState × σ × Nat :=
  -- INX
  let x := (s.REG_X + 1) &&& 0xff
  ({ s with REG_X := x, F_SIGN := (x >>> 7) &&& 1, F_ZERO := x }, w, cycleCount)

/-- Case 26 (INY) of the instruction switch of `CPU.emulate`. -/
def execINY (B : Bus σ) (s : CPUState) (w : σ)
    (addrMode addr : Nat) (opaddr : Int) (cycleCount cycleAdd : Nat) :
    CPUState × σ × Nat :=
  -- INY
  let y := (s.REG_Y + 1) &&& 0xff
  ({ s with REG_Y := y, F_SIGN := (y >>> 7) &&& 1, F_ZERO := y }, w, cycleCount)

/-- Case 27 (JMP) of the instruction switch of `CPU.emulate`. -/
def execJMP (B : Bus σ) (s : CPUState) (w : σ)
    (addrMode addr : Nat) (opaddr : Int) (cycleCount cycleAdd : Nat) :
    CPUState × σ × Nat :=
  -- JMP
  ({ s with REG_PC := (addr : Int) - 1 }, w, cycleCount)

/-- Case 28 (JSR) of the instruction switch of `CPU.emulate`. -/
def execJSR (B : Bus σ) (s : CPUState) (w : σ)
    (addrMode addr : Nat) (opaddr : Int) (cycleCount cycleAdd : Nat) :
    CPUState × σ × Nat :=
  -- JSR
  let r46 := push B s w (jsShr8And s.REG_PC)
  let r47 := push B r46.1 r46.2 (jsAnd s.REG_PC 0xff)
  ({ r47.1 with REG_PC := (addr : Int) - 1 }, r47.2, cycleCount)

/-- Case 29 (LDA) of the instruction switch of `CPU.emulate`. -/
def execLDA (B : Bus σ) (s : CPUState) (w : σ)
    (addrMode addr : Nat) (opaddr : Int) (cycleCount cycleAdd : Nat) :
    CPUState × σ × Nat :=
  -- LDA
  let r48 := load B w (addr : Int)
  ({ s with REG_ACC := r48.1, F_SIGN := (r48.1 >>> 7) &&& 1, F_ZERO := r48.1 },
    r48.2, cycleCount + cycleAdd)

/-- Case 30 (LDX) of the instruction switch of `CPU.emulate`. -/
def execLDX (B : Bus σ) (s : CPUState) (w : σ)
    (addrMode addr : Nat) (opaddr : Int) (cycleCount cycleAdd : Nat) :
    CPUState × σ × Nat :=
  -- LDX
  let r49 := load B w (addr : Int)
  ({ s with REG_X := r49.1, F_SIGN := (r49.1 >>> 7) &&& 1, F_ZERO := r49.1 },
    r49.2, cycleCount + cycleAdd)

/-- Case 31 (LDY) of the instruction switch of `CPU.emulate`. -/
def execLDY (B : Bus σ) (s : CPUState) (w : σ)
    (addrMode addr : Nat) (opaddr : Int) (cycleCount cycleAdd : Nat) :
    CPUState × σ × Nat :=
  -- LDY
  let r50 := load B w (addr : Int)
  ({ s with REG_Y := r50.1, F_SIGN := (r50.1 >>> 7) &&& 1, F_ZERO := r50.1 },
    r50.2, cycleCount + cycleAdd)

/-- Case 32 (LSR) of the instruction switch of `CPU.emulate`. -/
def execLSR (B : Bus σ) (s : CPUState) (w : σ)
    (addrMode addr : Nat) (opaddr : Int) (cycleCount cycleAdd : Nat) :
    CPUState × σ × Nat :=
  -- LSR
  if addrMode = 4 then
    let acc := s.REG_ACC >>> 1
    ({ s with
        F_CARRY := s.REG_ACC &&& 1, REG_ACC := acc, F_SIGN := 0,
        F_ZERO := acc }, w, cycleCount)
  else
    let r51 := load B w (addr : Int)
    let temp := r51.1 >>> 1
    let w2 := write B r51.2 (addr : Int) temp
    ({ s with F_CARRY := r51.1 &&& 1, F_SIGN := 0, F_ZERO := temp }, w2, cycleCount)

/-- Case 33 (NOP) of the instruction switch of `CPU.emulate`. -/
def execNOP (B : Bus σ) (s : CPUState) (w : σ)
    (addrMode addr : Nat) (opaddr : Int) (cycleCount cycleAdd : Nat) :
    CPUState × σ × Nat :=
  -- NOP
  (s, w, cycleCount)

/-- Case 34 (ORA) of the instruction switch of `CPU.emulate`. -/
def execORA (B : Bus σ) (s : CPUState) (w : σ)
    (addrMode addr : Nat) (opaddr : Int) (cycleCount cycleAdd : Nat) :
    CPUState × σ × Nat :=
  -- ORA
  let r52 := load B w (addr : Int)
  let acc := (r52.1 ||| s.REG_ACC) &&& 0xff
  ({ s with REG_ACC := acc, F_SIGN := (acc >>> 7) &&& 1, F_ZERO := acc },
    r52.2, if addrMode ≠ 11 then cycleCount + cycleAdd else cycleCount)

/-- Case 35 (PHA) of the instruction switch of `CPU.emulate`. -/
def execPHA (B : Bus σ) (s : CPUState) (w : σ)
    (addrMode addr : Nat) (opaddr : Int) (cycleCount cycleAdd : Nat) :
    CPUState × σ × Nat :=
  -- PHA
  let r53 := push B s w s.REG_ACC
  (r53.1, r53.2, cycleCount)

/-- Case 36 (PHP) of the instruction switch of `CPU.emulate`. -/
def execPHP (B : Bus σ) (s : CPUState) (w : σ)
    (addrMode addr : Nat) (opaddr : Int) (cycleCount cycleAdd : Nat) :
    CPUState × σ × Nat :=
  -- PHP
  let s1 := { s with F_BRK := 1 }
  let r54 := push B s1 w (statusPushByte s1)
  (r54.1, r54.2, cycleCount)

/-- Case 37 (PLA) of the instruction switch of `CPU.emulate`. -/
def execPLA (B : Bus σ) (s : CPUState) (w : σ)
    (addrMode addr : Nat) (opaddr : Int) (cycleCount cycleAdd : Nat) :
    CPUState × σ × Nat :=
  -- PLA
  let r55 := pull B s w
  ({ r55.2.1 with REG_ACC := r55.1, F_SIGN := (r55.1 >>> 7) &&& 1, F_ZERO := r55.1 },
    r55.2.2, cycleCount)

/-- Case 38 (PLP) of the instruction switch of `CPU.emulate`. -/
def execPLP (B : Bus σ) (s : CPUState) (w : σ)
    (addrMode addr : Nat) (opaddr : Int) (cycleCount cycleAdd : Nat) :
    CPUState × σ × Nat :=
  -- PLP (the final `F_NOTUSED = 1` of the source overwrites the pulled
  -- bit 5)
  let r56 := pull B s w
  ({ r56.2.1 with
      F_CARRY := r56.1 &&& 1,
      F_ZERO := if (r56.1 >>> 1) &&& 1 = 1 then 0 else 1,
      F_INTERRUPT := (r56.1 >>> 2) &&& 1, F_DECIMAL := (r56.1 >>> 3) &&& 1,
      F_BRK := (r56.1 >>> 4) &&& 1, F_OVERFLOW := (r56.1 >>> 6) &&& 1,
      F_SIGN := (r56.1 >>> 7) &&& 1, F_NOTUSED := 1 }, r56.2.2, cycleCount)

/-- Case 39 (ROL) of the instruction switch of `CPU.emulate`. -/
def execROL (B : Bus σ) (s : CPUState) (w : σ)
    (addrMode addr : Nat) (opaddr : Int) (cycleCount cycleAdd : Nat) :
    CPUState × σ × Nat :=
  -- ROL
  if addrMode = 4 then
    let add := s.F_CARRY
    let temp := ((s.REG_ACC <<< 1) &&& 0xff) + add
    ({ s with
        F_CARRY := (s.REG_ACC >>> 7) &&& 1, REG_ACC := temp,
        F_SIGN := (temp >>> 7) &&& 1, F_ZERO := temp }, w, cycleCount)
  else
    let r57 := load B w (addr : Int)
    let add := s.F_CARRY
    let temp := ((r57.1 <<< 1) &&& 0xff) + add
    let w2 := write B r57.2 (addr : Int) temp
    ({ s with
        F_CARRY := (r57.1 >>> 7) &&& 1, F_SIGN := (temp >>> 7) &&& 1,
        F_ZERO := temp }, w2, cycleCount)

/-- Case 40 (ROR) of the instruction switch of `CPU.emulate`. -/
def execROR (B : Bus σ) (s : CPUState) (w : σ)
    (addrMode addr : Nat) (opaddr : Int) (cycleCount cycleAdd : Nat) :
    CPUState × σ × Nat :=
  -- ROR
  if addrMode = 4 then
    let add := s.F_CARRY <<< 7
    let temp := (s.REG_ACC >>> 1) + add
    ({ s with
        F_CARRY := s.REG_ACC &&& 1, REG_ACC := temp,
        F_SIGN := (temp >>> 7) &&& 1, F_ZERO := temp }, w, cycleCount)
  else
    let r58 := load B w (addr : Int)
    let add := s.F_CARRY <<< 7
    let temp := (r58.1 >>> 1) + add
    let w2 := write B r58.2 (addr : Int) temp
    ({ s with
        F_CARRY := r58.1 &&& 1, F_SIGN := (temp >>> 7) &&& 1,
        F_ZERO := temp }, w2, cycleCount)

/-- Case 41 (RTI) of the instruction switch of `CPU.emulate`. -/
def execRTI (B : Bus σ) (s : CPUState) (w : σ)
    (addrMode addr : Nat) (opaddr : Int) (cycleCount cycleAdd : Nat) :
    CPUState × σ × Nat :=
  -- RTI.  When the pulled return address is 0xffff the source returns
  -- immediately, skipping both `REG_PC--` and the `F_NOTUSED = 1` repair.
  let r59 := pull B s w
  let s2 := { r59.2.1 with
      F_CARRY := r59.1 &&& 1,
      F_ZERO := if (r59.1 >>> 1) &&& 1 = 0 then 1 else 0,
      F_INTERRUPT := (r59.1 >>> 2) &&& 1, F_DECIMAL := (r59.1 >>> 3) &&& 1,
      F_BRK := (r59.1 >>> 4) &&& 1, F_NOTUSED := (r59.1 >>> 5) &&& 1,
      F_OVERFLOW := (r59.1 >>> 6) &&& 1, F_SIGN := (r59.1 >>> 7) &&& 1 }
  let r60 := pull B s2 r59.2.2
  let r61 := pull B r60.2.1 r60.2.2
  let s5 : CPUState := { r61.2.1 with REG_PC := ((r60.1 + (r61.1 <<< 8) : Nat) : Int) }
  if s5.REG_PC = 0xffff then (s5, r61.2.2, cycleCount)
  else ({ s5 with REG_PC := s5.REG_PC - 1, F_NOTUSED := 1 }, r61.2.2, cycleCount)

/-- Case 42 (RTS) of the instruction switch of `CPU.emulate`. -/
def execRTS (B : Bus σ) (s : CPUState) (w : σ)
    (addrMode addr : Nat) (opaddr : Int) (cycleCount cycleAdd : Nat) :
    CPUState × σ × Nat :=
  -- RTS (the source's 0xffff early return and the fall-through return
  -- the same value with the same state)
  let r62 := pull B s w
  let r63 := pull B r62.2.1 r62.2.2
  ({ r63.2.1 with REG_PC := ((r62.1 + (r63.1 <<< 8) : Nat) : Int) }, r63.2.2, cycleCount)

/-- Case 43 (SBC) of the instruction switch of `CPU.emulate`. -/
def execSBC (B : Bus σ) (s : CPUState) (w : σ)
    (addrMode addr : Nat) (opaddr : Int) (cycleCount cycleAdd : Nat) :
    CPUState × σ × Nat :=
  -- SBC
  let r64 := load B w (addr : Int)
  let temp : Int := (s.REG_ACC : Int) - r64.1 - (1 - (s.F_CARRY : Int))
  ({ s with
      F_SIGN := jsBit temp 7, F_ZERO := jsAnd temp 0xff,
      F_OVERFLOW := if (jsXor s.REG_ACC temp) &&& 0x80 ≠ 0 ∧
          ((s.REG_ACC ^^^ r64.1) &&& 0x80) ≠ 0 then 1 else 0,
      F_CARRY := if temp < 0 then 0 else 1,
      REG_ACC := jsAnd temp 0xff }, r64.2,
    if addrMode ≠ 11 then cycleCount + cycleAdd else cycleCount)

/-- Case 44 (SEC) of the instruction switch of `CPU.emulate`. -/
def execSEC (B : Bus σ) (s : CPUState) (w : σ)
    (addrMode addr : Nat) (opaddr : Int) (cycleCount cycleAdd : Nat) :
    CPUState × σ × Nat :=
  ({ s with F_CARRY := 1 }, w, cycleCount)      -- SEC

/-- Case 45 (SED) of the instruction switch of `CPU.emulate`. -/
def execSED (B : Bus σ) (s : CPUState) (w : σ)
    (addrMode addr : Nat) (opaddr : Int) (cycleCount cycleAdd : Nat) :
    CPUState × σ × Nat :=
  ({ s with F_DECIMAL := 1 }, w, cycleCount)    -- SED

/-- Case 46 (SEI) of the instruction switch of `CPU.emulate`. -/
def execSEI (B : Bus σ) (s : CPUState) (w : σ)
    (addrMode addr : Nat) (opaddr : Int) (cycleCount cycleAdd : Nat) :
    CPUState × σ × Nat :=
  ({ s with F_INTERRUPT := 1 }, w, cycleCount)  -- SEI

/-- Case 47 (STA) of the instruction switch of `CPU.emulate`. -/
def execSTA (B : Bus σ) (s : CPUState) (w : σ)
    (addrMode addr : Nat) (opaddr : Int) (cycleCount cycleAdd : Nat) :
    CPUState × σ × Nat :=
  (s, write B w (addr : Int) s.REG_ACC, cycleCount) -- STA

/-- Case 48 (STX) of the instruction switch of `CPU.emulate`. -/
def execSTX (B : Bus σ) (s : CPUState) (w : σ)
    (addrMode addr : Nat) (opaddr : Int) (cycleCount cycleAdd : Nat) :
    CPUState × σ × Nat :=
  (s, write B w (addr : Int) s.REG_X, cycleCount)   -- STX

/-- Case 49 (STY) of the instruction switch of `CPU.emulate`. -/
def execSTY (B : Bus σ) (s : CPUState) (w : σ)
    (addrMode addr : Nat) (opaddr : Int) (cycleCount cycleAdd : Nat) :
    CPUState × σ × Nat :=
  (s, write B w (addr : Int) s.REG_Y, cycleCount)   -- STY

/-- Case 50 (TAX) of the instruction switch of `CPU.emulate`. -/
def execTAX (B : Bus σ) (s : CPUState) (w : σ)
    (addrMode addr : Nat) (opaddr : Int) (cycleCount cycleAdd : Nat) :
    CPUState × σ × Nat :=
  -- TAX
  ({ s with
      REG_X := s.REG_ACC, F_SIGN := (s.REG_ACC >>> 7) &&& 1,
      F_ZERO := s.REG_ACC }, w, cycleCount)

/-- Case 51 (TAY) of the instruction switch of `CPU.emulate`. -/
def execTAY (B : Bus σ) (s : CPUState) (w : σ)
    (addrMode addr : Nat) (opaddr : Int) (cycleCount cycleAdd : Nat) :
    CPUState × σ × Nat :=
  -- TAY
  ({ s with
      REG_Y := s.REG_ACC, F_SIGN := (s.REG_ACC >>> 7) &&& 1,
      F_ZERO := s.REG_ACC }, w, cycleCount)

/-- Case 52 (TSX) of the instruction switch of `CPU.emulate`. -/
def execTSX (B : Bus σ) (s : CPUState) (w : σ)
    (addrMode addr : Nat) (opaddr : Int) (cycleCount cycleAdd : Nat) :
    CPUState × σ × Nat :=
  -- TSX
  let x := s.REG_SP &&& 0xff
  ({ s with REG_X := x, F_SIGN := (s.REG_SP >>> 7) &&& 1, F_ZERO := x },
    w, cycleCount)

/-- Case 53 (TXA) of the instruction switch of `CPU.emulate`. -/
def execTXA (B : Bus σ) (s : CPUState) (w : σ)
    (addrMode addr : Nat) (opaddr : Int) (cycleCount cycleAdd : Nat) :
    CPUState × σ × Nat :=
  -- TXA
  ({ s with
      REG_ACC := s.REG_X, F_SIGN := (s.REG_X >>> 7) &&& 1,
      F_ZERO := s.REG_X }, w, cycleCount)

/-- Case 54 (TXS) of the instruction switch of `CPU.emulate`. -/
def execTXS (B : Bus σ) (s : CPUState) (w : σ)
    (addrMode addr : Nat) (opaddr : Int) (cycleCount cycleAdd : Nat) :
    CPUState × σ × Nat :=
  -- TXS
  ({ s with REG_SP := s.REG_X &&& 0xff }, w, cycleCount)

/-- Case 55 (TYA) of the instruction switch of `CPU.emulate`. -/
def execTYA (B : Bus σ) (s : CPUState) (w : σ)
    (addrMode addr : Nat) (opaddr : Int) (cycleCount cycleAdd : Nat) :
    CPUState × σ × Nat :=
  -- TYA
  ({ s with
      REG_ACC := s.REG_Y, F_SIGN := (s.REG_Y >>> 7) &&& 1,
      F_ZERO := s.REG_Y }, w, cycleCount)

/-- Case 56 (ALR) of the instruction switch of `CPU.emulate`. -/
def execALR (B : Bus σ) (s : CPUState) (w : σ)
    (addrMode addr : Nat) (opaddr : Int) (cycleCount cycleAdd : Nat) :
    CPUState × σ × Nat :=
  -- ALR
  let r65 := load B w (addr : Int)
  let temp := s.REG_ACC &&& r65.1
  ({ s with
      F_CARRY := temp &&& 1, REG_ACC := temp >>> 1,
      F_ZERO := temp >>> 1, F_SIGN := 0 }, r65.2, cycleCount)

/-- Case 57 (ANC) of the instruction switch of `CPU.emulate`. -/
def execANC (B : Bus σ) (s : CPUState) (w : σ)
    (addrMode addr : Nat) (opaddr : Int) (cycleCount cycleAdd : Nat) :
    CPUState × σ × Nat :=
  -- ANC
  let r66 := load B w (addr : Int)
  let acc := s.REG_ACC &&& r66.1
  ({ s with
      REG_ACC := acc, F_ZERO := acc, F_CARRY := (acc >>> 7) &&& 1,
      F_SIGN := (acc >>> 7) &&& 1 }, r66.2, cycleCount)

/-- Case 58 (ARR) of the instruction switch of `CPU.emulate`. -/
def execARR (B : Bus σ) (s : CPUState) (w : σ)
    (addrMode addr : Nat) (opaddr : Int) (cycleCount cycleAdd : Nat) :
    CPUState × σ × Nat :=
  -- ARR
  let r67 := load B w (addr : Int)
  let temp := s.REG_ACC &&& r67.1
  let acc := (temp >>> 1) + (s.F_CARRY <<< 7)
  ({ s with
      REG_ACC := acc, F_ZERO := acc, F_SIGN := s.F_CARRY,
      F_CARRY := (temp >>> 7) &&& 1,
      F_OVERFLOW := ((temp >>> 7) ^^^ (temp >>> 6)) &&& 1 }, r67.2, cycleCount)

/-- Case 59 (AXS) of the instruction switch of `CPU.emulate`. -/
def execAXS (B : Bus σ) (s : CPUState) (w : σ)
    (addrMode addr : Nat) (opaddr : Int) (cycleCount cycleAdd : Nat) :
    CPUState × σ × Nat :=
  -- AXS
  let r68 := load B w (addr : Int)
  let temp : Int := ((s.REG_X &&& s.REG_ACC : Nat) : Int) - r68.1
  ({ s with
      F_SIGN := jsBit temp 7, F_ZERO := jsAnd temp 0xff,
      F_OVERFLOW := if (jsXor s.REG_X temp) &&& 0x80 ≠ 0 ∧
          ((s.REG_X ^^^ r68.1) &&& 0x80) ≠ 0 then 1 else 0,
      F_CARRY := if temp < 0 then 0 else 1,
      REG_X := jsAnd temp 0xff }, r68.2, cycleCount)

/-- Case 60 (LAX) of the instruction switch of `CPU.emulate`. -/
def execLAX (B : Bus σ) (s : CPUState) (w : σ)
    (addrMode addr : Nat) (opaddr : Int) (cycleCount cycleAdd : Nat) :
    CPUState × σ × Nat :=
  -- LAX
  let r69 := load B w (addr : Int)
  ({ s with
      REG_ACC := r69.1, REG_X := r69.1, F_ZERO := r69.1,
      F_SIGN := (r69.1 >>> 7) &&& 1 }, r69.2, cycleCount + cycleAdd)

/-- Case 61 (SAX) of the instruction switch of `CPU.emulate`. -/
def execSAX (B : Bus σ) (s : CPUState) (w : σ)
    (addrMode addr : Nat) (opaddr : Int) (cycleCount cycleAdd : Nat) :
    CPUState × σ × Nat :=
  -- SAX
  (s, write B w (addr : Int) (s.REG_ACC &&& s.REG_X), cycleCount)

/-- Case 62 (DCP) of the instruction switch of `CPU.emulate`. -/
def execDCP (B : Bus σ) (s : CPUState) (w : σ)
    (addrMode addr : Nat) (opaddr : Int) (cycleCount cycleAdd : Nat) :
    CPUState × σ × Nat :=
  -- DCP
  let r70 := load B w (addr : Int)
  let temp := jsAnd ((r70.1 : Int) - 1) 0xff
  let w2 := write B r70.2 (addr : Int) temp
  let temp2 : Int := (s.REG_ACC : Int) - temp
  ({ s with
      F_CARRY := if temp2 ≥ 0 then 1 else 0, F_SIGN := jsBit temp2 7,
      F_ZERO := jsAnd temp2 0xff }, w2,
    if addrMode ≠ 11 then cycleCount + cycleAdd else cycleCount)

/-- Case 63 (ISC) of the instruction switch of `CPU.emulate`. -/
def execISC (B : Bus σ) (s : CPUState) (w : σ)
    (addrMode addr : Nat) (opaddr : Int) (cycleCount cycleAdd : Nat) :
    CPUState × σ × Nat :=
  -- ISC
  let r71 := load B w (addr : Int)
  let val := (r71.1 + 1) &&& 0xff
  let w2 := write B r71.2 (addr : Int) val
  let temp : Int := (s.REG_ACC : Int) - val - (1 - (s.F_CARRY : Int))
  ({ s with
      F_SIGN := jsBit temp 7, F_ZERO := jsAnd temp 0xff,
      F_OVERFLOW := if (jsXor s.REG_ACC temp) &&& 0x80 ≠ 0 ∧
          ((s.REG_ACC ^^^ val) &&& 0x80) ≠ 0 then 1 else 0,
      F_CARRY := if temp < 0 then 0 else 1,
      REG_ACC := jsAnd temp 0xff }, w2,
    if addrMode ≠ 11 then cycleCount + cycleAdd else cycleCount)

/-- Case 64 (RLA) of the instruction switch of `CPU.emulate`. -/
def execRLA (B : Bus σ) (s : CPUState) (w : σ)
    (addrMode addr : Nat) (opaddr : Int) (cycleCount cycleAdd : Nat) :
    CPUState × σ × Nat :=
  -- RLA
  let r72 := load B w (addr : Int)
  let add := s.F_CARRY
  let temp := ((r72.1 <<< 1) &&& 0xff) + add
  let w2 := write B r72.2 (addr : Int) temp
  let acc := s.REG_ACC &&& temp
  ({ s with
      F_CARRY := (r72.1 >>> 7) &&& 1, REG_ACC := acc,
      F_SIGN := (acc >>> 7) &&& 1, F_ZERO := acc }, w2,
    if addrMode ≠ 11 then cycleCount + cycleAdd else cycleCount)

/-- Case 65 (RRA) of the instruction switch of `CPU.emulate`. -/
def execRRA (B : Bus σ) (s : CPUState) (w : σ)
    (addrMode addr : Nat) (opaddr : Int) (cycleCount cycleAdd : Nat) :
    CPUState × σ × Nat :=
  -- RRA
  let r73 := load B w (addr : Int)
  let add := s.F_CARRY <<< 7
  let val := (r73.1 >>> 1) + add
  let w2 := write B r73.2 (addr : Int) val
  let temp := s.REG_ACC + val + (r73.1 &&& 1)
  ({ s with
      F_OVERFLOW := if ((s.REG_ACC ^^^ val) &&& 0x80) = 0 ∧
          ((s.REG_ACC ^^^ temp) &&& 0x80) ≠ 0 then 1 else 0,
      F_CARRY := if temp > 255 then 1 else 0,
      F_SIGN := (temp >>> 7) &&& 1, F_ZERO := temp &&& 0xff,
      REG_ACC := temp &&& 0xff }, w2,
    if addrMode ≠ 11 then cycleCount + cycleAdd else cycleCount)

/-- Case 66 (SLO) of the instruction switch of `CPU.emulate`. -/
def execSLO (B : Bus σ) (s : CPUState) (w : σ)
    (addrMode addr : Nat) (opaddr : Int) (cycleCount cycleAdd : Nat) :
    CPUState × σ × Nat :=
  -- SLO
  let r74 := load B w (addr : Int)
  let temp := (r74.1 <<< 1) &&& 0xff
  let w2 := write B r74.2 (addr : Int) temp
  let acc := s.REG_ACC ||| temp
  ({ s with
      F_CARRY := (r74.1 >>> 7) &&& 1, REG_ACC := acc,
      F_SIGN := (acc >>> 7) &&& 1, F_ZERO := acc }, w2,
    if addrMode ≠ 11 then cycleCount + cycleAdd else cycleCount)

/-- Case 67 (SRE) of the instruction switch of `CPU.emulate`. -/
def execSRE (B : Bus σ) (s : CPUState) (w : σ)
    (addrMode addr : Nat) (opaddr : Int) (cycleCount cycleAdd : Nat) :
    CPUState × σ × Nat :=
  -- SRE
  let r75 := load B w (addr : Int)
  let temp := r75.1 >>> 1
  let w2 := write B r75.2 (addr : Int) temp
  let acc := s.REG_ACC ^^^ temp
  ({ s with
      F_CARRY := r75.1 &&& 1, REG_ACC := acc,
      F_SIGN := (acc >>> 7) &&& 1, F_ZERO := acc }, w2,
    if addrMode ≠ 11 then cycleCount + cycleAdd else cycleCount)

/-- Case 68 (SKB) of the instruction switch of `CPU.emulate`. -/
def execSKB (B : Bus σ) (s : CPUState) (w : σ)
    (addrMode addr : Nat) (opaddr : Int) (cycleCount cycleAdd : Nat) :
    CPUState × σ × Nat :=
  -- SKB
  (s, w, cycleCount)

/-- Case 69 (IGN) of the instruction switch of `CPU.emulate`. -/
def execIGN (B : Bus σ) (s : CPUState) (w : σ)
    (addrMode addr : Nat) (opaddr : Int) (cycleCount cycleAdd : Nat) :
    CPUState × σ × Nat :=
  -- IGN
  let r76 := load B w (addr : Int)
  (s, r76.2, if addrMode ≠ 11 then cycleCount + cycleAdd else cycleCount)

/-- The `default` case of the instruction switch (cpu.js lines 642-645):
an unknown opcode stops the console. -/
def execUnknown (B : Bus σ) (s : CPUState) (w : σ)
    (addrMode addr : Nat) (opaddr : Int) (cycleCount cycleAdd : Nat) :
    CPUState × σ × Nat :=
  -- unknown opcode: `this.nes.stop()` and a crash message on the console
  (s, B.stop w, cycleCount)

/-- The instruction identifiers `INS_ADC .. INS_IGN` (with `unknown` for
any value outside the table) as an enumeration, so the 71-way dispatch of
the instruction switch is a single inductive match. -/
inductive OpKind where
  | kADC
  | kAND
  | kASL
  | kBCC
  | kBCS
  | kBEQ
  | kBIT
  | kBMI
  | kBNE
  | kBPL
  | kBRK
  | kBVC
  | kBVS
  | kCLC
  | kCLD
  | kCLI
  | kCLV
  | kCMP
  | kCPX
  | kCPY
  | kDEC
  | kDEX
  | kDEY
  | kEOR
  | kINC
  | kINX
  | kINY
  | kJMP
  | kJSR
  | kLDA
  | kLDX
  | kLDY
  | kLSR
  | kNOP
  | kORA
  | kPHA
  | kPHP
  | kPLA
  | kPLP
  | kROL
  | kROR
  | kRTI
  | kRTS
  | kSBC
  | kSEC
  | kSED
  | kSEI
  | kSTA
  | kSTX
  | kSTY
  | kTAX
  | kTAY
  | kTSX
  | kTXA
  | kTXS
  | kTYA
  | kALR
  | kANC
  | kARR
  | kAXS
  | kLAX
  | kSAX
  | kDCP
  | kISC
  | kRLA
  | kRRA
  | kSLO
  | kSRE
  | kSKB
  | kIGN
  | kUnknown
deriving Repr, DecidableEq

/-- The `switch (opinf & 0xff)` discriminator of `CPU.emulate` (cpu.js
line 214): instruction id to `OpKind`. -/
def decodeInstr (inst : Nat) : OpKind :=
  match inst with
  | 0 => .kADC
  | 1 => .kAND
  | 2 => .kASL
  | 3 => .kBCC
  | 4 => .kBCS
  | 5 => .kBEQ
  | 6 => .kBIT
  | 7 => .kBMI
  | 8 => .kBNE
  | 9 => .kBPL
  | 10 => .kBRK
  | 11 => .kBVC
  | 12 => .kBVS
  | 13 => .kCLC
  | 14 => .kCLD
  | 15 => .kCLI
  | 16 => .kCLV
  | 17 => .kCMP
  | 18 => .kCPX
  | 19 => .kCPY
  | 20 => .kDEC
  | 21 => .kDEX
  | 22 => .kDEY
  | 23 => .kEOR
  | 24 => .kINC
  | 25 => .kINX
  | 26 => .kINY
  | 27 => .kJMP
  | 28 => .kJSR
  | 29 => .kLDA
  | 30 => .kLDX
  | 31 => .kLDY
  | 32 => .kLSR
  | 33 => .kNOP
  | 34 => .kORA
  | 35 => .kPHA
  | 36 => .kPHP
  | 37 => .kPLA
  | 38 => .kPLP
  | 39 => .kROL
  | 40 => .kROR
  | 41 => .kRTI
  | 42 => .kRTS
  | 43 => .kSBC
  | 44 => .kSEC
  | 45 => .kSED
  | 46 => .kSEI
  | 47 => .kSTA
  | 48 => .kSTX
  | 49 => .kSTY
  | 50 => .kTAX
  | 51 => .kTAY
  | 52 => .kTSX
  | 53 => .kTXA
  | 54 => .kTXS
  | 55 => .kTYA
  | 56 => .kALR
  | 57 => .kANC
  | 58 => .kARR
  | 59 => .kAXS
  | 60 => .kLAX
  | 61 => .kSAX
  | 62 => .kDCP
  | 63 => .kISC
  | 64 => .kRLA
  | 65 => .kRRA
  | 66 => .kSLO
  | 67 => .kSRE
  | 68 => .kSKB
  | 69 => .kIGN
  | _ => .kUnknown

/-- The instruction switch of `CPU.emulate` (cpu.js lines 214-646): `s` is
the CPU state with `REG_PC` already advanced past the instruction, `w` the
world after the operand fetches, `inst`/`addrMode` the decoded table
fields, `addr` the masked effective address, `opaddr` the pre-increment
`REG_PC`, and `cycleCount`/`cycleAdd` the decoded base cycles and the
page-cross penalty of the addressing phase.  Each case of the source's
`switch` is its own definition above. -/
def execInstruction (B : Bus σ) (s : CPUState) (w : σ)
    (inst addrMode addr : Nat) (opaddr : Int) (cycleCount cycleAdd : Nat) :
    CPUState × σ × Nat :=
  match decodeInstr inst with
  | .kADC => execADC B s w addrMode addr opaddr cycleCount cycleAdd
  | .kAND => execAND B s w addrMode addr opaddr cycleCount cycleAdd
  | .kASL => execASL B s w addrMode addr opaddr cycleCount cycleAdd
  | .kBCC => execBCC B s w addrMode addr opaddr cycleCount cycleAdd
  | .kBCS => execBCS B s w addrMode addr opaddr cycleCount cycleAdd
  | .kBEQ => execBEQ B s w addrMode addr opaddr cycleCount cycleAdd
  | .kBIT => execBIT B s w addrMode addr opaddr cycleCount cycleAdd
  | .kBMI => execBMI B s w addrMode addr opaddr cycleCount cycleAdd
  | .kBNE => execBNE B s w addrMode addr opaddr cycleCount cycleAdd
  | .kBPL => execBPL B s w addrMode addr opaddr cycleCount cycleAdd
  | .kBRK => execBRK B s w addrMode addr opaddr cycleCount cycleAdd
  | .kBVC => execBVC B s w addrMode addr opaddr cycleCount cycleAdd
  | .kBVS => execBVS B s w addrMode addr opaddr cycleCount cycleAdd
  | .kCLC => execCLC B s w addrMode addr opaddr cycleCount cycleAdd
  | .kCLD => execCLD B s w addrMode addr opaddr cycleCount cycleAdd
  | .kCLI => execCLI B s w addrMode addr opaddr cycleCount cycleAdd
  | .kCLV => execCLV B s w addrMode addr opaddr cycleCount cycleAdd
  | .kCMP => execCMP B s w addrMode addr opaddr cycleCount cycleAdd
  | .kCPX => execCPX B s w addrMode addr opaddr cycleCount cycleAdd
  | .kCPY => execCPY B s w addrMode addr opaddr cycleCount cycleAdd
  | .kDEC => execDEC B s w addrMode addr opaddr cycleCount cycleAdd
  | .kDEX => execDEX B s w addrMode addr opaddr cycleCount cycleAdd
  | .kDEY => execDEY B s w addrMode addr opaddr cycleCount cycleAdd
  | .kEOR => execEOR B s w addrMode addr opaddr cycleCount cycleAdd
  | .kINC => execINC B s w addrMode addr opaddr cycleCount cycleAdd
  | .kINX => execINX B s w addrMode addr opaddr cycleCount cycleAdd
  | .kINY => execINY B s w addrMode addr opaddr cycleCount cycleAdd
  | .kJMP => execJMP B s w addrMode addr opaddr cycleCount cycleAdd
  | .kJSR => execJSR B s w addrMode addr opaddr cycleCount cycleAdd
  | .kLDA => execLDA B s w addrMode addr opaddr cycleCount cycleAdd
  | .kLDX => execLDX B s w addrMode addr opaddr cycleCount cycleAdd
  | .kLDY => execLDY B s w addrMode addr opaddr cycleCount cycleAdd
  | .kLSR => execLSR B s w addrMode addr opaddr cycleCount cycleAdd
  | .kNOP => execNOP B s w addrMode addr opaddr cycleCount cycleAdd
  | .kORA => execORA B s w addrMode addr opaddr cycleCount cycleAdd
  | .kPHA => execPHA B s w addrMode addr opaddr cycleCount cycleAdd
  | .kPHP => execPHP B s w addrMode addr opaddr cycleCount cycleAdd
  | .kPLA => execPLA B s w addrMode addr opaddr cycleCount cycleAdd
  | .kPLP => execPLP B s w addrMode addr opaddr cycleCount cycleAdd
  | .kROL => execROL B s w addrMode addr opaddr cycleCount cycleAdd
  | .kROR => execROR B s w addrMode addr opaddr cycleCount cycleAdd
  | .kRTI => execRTI B s w addrMode addr opaddr cycleCount cycleAdd
  | .kRTS => execRTS B s w addrMode addr opaddr cycleCount cycleAdd
  | .kSBC => execSBC B s w addrMode addr opaddr cycleCount cycleAdd
  | .kSEC => execSEC B s w addrMode addr opaddr cycleCount cycleAdd
  | .kSED => execSED B s w addrMode addr opaddr cycleCount cycleAdd
  | .kSEI => execSEI B s w addrMode addr opaddr cycleCount cycleAdd
  | .kSTA => execSTA B s w addrMode addr opaddr cycleCount cycleAdd
  | .kSTX => execSTX B s w addrMode addr opaddr cycleCount cycleAdd
  | .kSTY => execSTY B s w addrMode addr opaddr cycleCount cycleAdd
  | .kTAX => execTAX B s w addrMode addr opaddr cycleCount cycleAdd
  | .kTAY => execTAY B s w addrMode addr opaddr cycleCount cycleAdd
  | .kTSX => execTSX B s w addrMode addr opaddr cycleCount cycleAdd
  | .kTXA => execTXA B s w addrMode addr opaddr cycleCount cycleAdd
  | .kTXS => execTXS B s w addrMode addr opaddr cycleCount cycleAdd
  | .kTYA => execTYA B s w addrMode addr opaddr cycleCount cycleAdd
  | .kALR => execALR B s w addrMode addr opaddr cycleCount cycleAdd
  | .kANC => execANC B s w addrMode addr opaddr cycleCount cycleAdd
  | .kARR => execARR B s w addrMode addr opaddr cycleCount cycleAdd
  | .kAXS => execAXS B s w addrMode addr opaddr cycleCount cycleAdd
  | .kLAX => execLAX B s w addrMode addr opaddr cycleCount cycleAdd
  | .kSAX => execSAX B s w addrMode addr opaddr cycleCount cycleAdd
  | .kDCP => execDCP B s w addrMode addr opaddr cycleCount cycleAdd
  | .kISC => execISC B s w addrMode addr opaddr cycleCount cycleAdd
  | .kRLA => execRLA B s w addrMode addr opaddr cycleCount cycleAdd
  | .kRRA => execRRA B s w addrMode addr opaddr cycleCount cycleAdd
  | .kSLO => execSLO B s w addrMode addr opaddr cycleCount cycleAdd
  | .kSRE => execSRE B s w addrMode addr opaddr cycleCount cycleAdd
  | .kSKB => execSKB B s w addrMode addr opaddr cycleCount cycleAdd
  | .kIGN => execIGN B s w addrMode addr opaddr cycleCount cycleAdd
  | .kUnknown => execUnknown B s w addrMode addr opaddr cycleCount cycleAdd

/-- `CPU.emulate` (cpu.js lines 120-649): interrupt gate, opcode fetch and
decode, operand addressing, then the instruction switch
(`execInstruction`).  Returns the final CPU registers, the final world, and
the cycle count the function returns.  The source's
`if (mmap === null) return 32` guard is for the un-loaded console; the
embedding models the console with a mapper loaded. -/
def emulate (B : Bus σ) (s0 : CPUState) (w0 : σ) : CPUState × σ × Nat :=
  let r77 := emulateIrqPhase B s0 w0
  let r78 := B.mmapLoad r77.2 (r77.1.REG_PC + 1)
  let opinf := OPDATA r78.1
  let cycleCount := opinf >>> 24
  let addrMode := (opinf >>> 8) &&& 0xff
  let opaddr : Int := r77.1.REG_PC
  let pc1 : Int := r77.1.REG_PC + (((opinf >>> 16) &&& 0xff : Nat) : Int)
  let r79 := fetchAddress B r77.1 r78.2 addrMode opaddr pc1
  let addr : Nat := jsAnd r79.1 0xffff
  execInstruction B { r77.1 with REG_PC := pc1 } r79.2.2 (opinf &&& 0xff) addrMode
    addr opaddr cycleCount r79.2.1

end CPU

/-! ## A concrete bus world for running the CPU

A flat, byte-addressed 64 KiB memory: mapper loads and stores mask the
address to 16 bits exactly as `Mapper.load` does (mappers.js line 50) and,
like the `Uint8Array` backing `this.mem`, stores mask the value to 8 bits.
It is a degenerate but legitimate memory map, used to drive concrete
executions of `CPU.emulate` in the theorems below. -/

/-- Point update of a flat memory. -/
def memUpd (f : Nat → Nat) (a v : Nat) : Nat → Nat :=
  fun x => if x = a then v % 256 else f x

/-- The flat 64 KiB bus world. -/
def ramBus : Bus (Nat → Nat) where
  memRead := fun f a => f a
  memWrite := memUpd
  mmapLoad := fun f a => (f (jsAnd a 0xffff), f)
  mmapWrite := fun f a v => memUpd f (jsAnd a 0xffff) v
  stop := fun f => f

/-! ## Base mapper bus dispatch (`src/mappers.js`, `Mapper`)

`Mapper.load` (lines 49-58) and `regLoad` (lines 60-95) choose, from the
address alone, which handler answers a CPU read.  The dispatch structure is
embedded as a routing function into an inductive of the handlers that appear
as the leaves of the source's `switch` statements. -/

/-- The leaves of `Mapper.regLoad` (mappers.js lines 60-95).  `zero` covers
every `break`/unlisted case that falls through to `return 0`. -/
inductive RegLoadTarget where
  /-- `case 0x0`: the latched `$2000` byte, `this.nes.cpu.mem[0x2000]`. -/
  | ctrlByte
  /-- `case 0x1`: the latched `$2001` byte, `this.nes.cpu.mem[0x2001]`. -/
  | maskByte
  /-- `case 0x2`: `this.nes.ppu.readStatusRegister()`. -/
  | status
  /-- `return 0`. -/
  | zero
  /-- `case 0x4`: `this.nes.ppu.sramLoad()`. -/
  | oamData
  /-- `case 0x7`: `this.nes.ppu.vramLoad()`. -/
  | vramData
  /-- `0x4015`: `this.nes.papu.readReg(address)`. -/
  | papuStatus
  /-- `0x4016`: `this.joy1Read()`. -/
  | joy1
  /-- `0x4017`: `this.joy2Read()` merged with the zapper bits. -/
  | joy2Zapper
deriving Repr, DecidableEq

/-- The dispatch of `Mapper.regLoad` (mappers.js lines 60-95): switch on
`address >> 12`, then on `address & 0x7` for the PPU registers and on
`address - 0x4015` for the I/O registers. -/
def regLoadTarget (address : Nat) : RegLoadTarget :=
  if address >>> 12 = 0 ∨ address >>> 12 = 1 then .zero
  else if address >>> 12 = 2 ∨ address >>> 12 = 3 then
    if address &&& 0x7 = 0 then .ctrlByte
    else if address &&& 0x7 = 1 then .maskByte
    else if address &&& 0x7 = 2 then .status
    else if address &&& 0x7 = 3 then .zero
    else if address &&& 0x7 = 4 then .oamData
    else if address &&& 0x7 = 5 then .zero
    else if address &&& 0x7 = 6 then .zero
    else .vramData
  else if address >>> 12 = 4 then
    if address = 0x4015 then .papuStatus
    else if address = 0x4016 then .joy1
    else if address = 0x4017 then .joy2Zapper
    else .zero
  else .zero

/-- The three branches of `Mapper.load` (mappers.js lines 49-58). -/
inductive CpuLoadTarget where
  /-- `address > 0x4017`: `this.nes.cpu.mem[address]`. -/
  | highMem
  /-- `address >= 0x2000`: `this.regLoad(address)`. -/
  | reg (t : RegLoadTarget)
  /-- otherwise: `this.nes.cpu.mem[address & 0x7ff]`. -/
  | ram
deriving Repr, DecidableEq

/-- The dispatch of `Mapper.load` (mappers.js lines 49-58), after the
`address &= 0xffff` mask. -/
def mapperLoadTarget (address : Nat) : CpuLoadTarget :=
  let a := address &&& 0xffff
  if a > 0x4017 then .highMem
  else if a ≥ 0x2000 then .reg (regLoadTarget a)
  else .ram

/-- The handlers reachable from `Mapper.write`/`regWrite` (mappers.js lines
22-35 and 97-121) that the claims need; `other` covers the remaining
`regWrite` cases (PPU scroll/address/data registers, APU, joypad). -/
inductive CpuWriteTarget where
  /-- `address < 0x2000`: `this.nes.cpu.mem[address & 0x7ff] = value`. -/
  | ram
  /-- `address > 0x4017`: `this.nes.cpu.mem[address] = value` (plus the
  battery-RAM callback for `0x6000-0x7fff`). -/
  | highMem
  /-- `case 0x4014`: `this.nes.ppu.sramDMA(value)`. -/
  | sramDMA
  /-- any other `regWrite` register. -/
  | otherReg
deriving Repr, DecidableEq

/-- The dispatch of `Mapper.write` (mappers.js lines 22-35) composed with
the `switch (address)` of `regWrite` (lines 97-121), reduced to the targets
above.  Addresses `0x2008-0x3fff` are first folded to `0x2000 + (address &
0x7)`. -/
def mapperWriteTarget (address : Nat) : CpuWriteTarget :=
  if address < 0x2000 then .ram
  else if address > 0x4017 then .highMem
  else
    let r := if 0x2007 < address ∧ address < 0x4000
             then 0x2000 + (address &&& 0x7) else address
    if r = 0x4014 then .sramDMA else .otherReg

/-! ## Mapper 1 (MMC1) serial register (`src/mappers.js`, lines 271-442)

Only the register state of `Mapper1` is carried here; the
`updateMirroring`/`updateChrBanks`/`updatePrgBanks` calls triggered by a
latch rewrite PPU and CPU memory banks and touch none of these registers. -/

/-- cpu.js lines 43-72 pre-declare every property of the `CPU` object, and
`cycles` is not one of them; nothing anywhere in the repository assigns a
`cycles` property either.  `this.nes.cpu.cycles` therefore evaluates to
`undefined`.  -/
def cpuCyclesProperty : Option Nat := none

/-- `const currentCycle = this.nes.cpu.cycles || 0` (mappers.js line 304):
`undefined || 0` is `0`. -/
def mapper1CurrentCycle : Nat := cpuCyclesProperty.getD 0

/-- The `Mapper1` registers (mappers.js lines 272-280). -/
structure Mapper1Regs where
  shiftReg : Nat
  controlReg : Nat
  chrBank0 : Nat
  chrBank1 : Nat
  prgBank : Nat
  lastWriteCycle : Nat
deriving Repr, DecidableEq

/-- The `Mapper1` constructor/reset register values (mappers.js lines
272-289). -/
def Mapper1Regs.init : Mapper1Regs where
  shiftReg := 0x10
  controlReg := 0x0c
  chrBank0 := 0
  chrBank1 := 0
  prgBank := 0
  lastWriteCycle := 0

/-- `Mapper1.write` (mappers.js lines 296-358), projected to the register
state: writes below `0x8000` go to `super.write` (the memory bus) and leave
these registers alone; otherwise the consecutive-cycle guard runs, then
either the bit-7 reset, or the LSB-first serial shift with a latch into the
register selected by address bits 13-14 on the fifth write. -/
def Mapper1Regs.write (m : Mapper1Regs) (address value : Nat) : Mapper1Regs :=
  if address < 0x8000 then m
  else
    let currentCycle := mapper1CurrentCycle
    if currentCycle > 0 ∧ (currentCycle : Int) - m.lastWriteCycle ≤ 1 then m
    else
      let m1 := { m with lastWriteCycle := currentCycle }
      if value &&& 0x80 ≠ 0 then
        { m1 with shiftReg := 0x10, controlReg := m1.controlReg ||| 0x0c }
      else
        let bit := value &&& 1
        let full := (m1.shiftReg &&& 1) ≠ 0
        let m2 := { m1 with shiftReg := (m1.shiftReg >>> 1) ||| (bit <<< 4) }
        if full then
          let regValue := m2.shiftReg
          let regType := (address >>> 13) &&& 3
          let m3 := { m2 with shiftReg := 0x10 }
          if regType = 0 then { m3 with controlReg := regValue }
          else if regType = 1 then { m3 with chrBank0 := regValue }
          else if regType = 2 then { m3 with chrBank1 := regValue }
          else { m3 with prgBank := regValue }
        else m2

/-! ## Mapper 4 (MMC3) scanline IRQ (`src/mappers.js`, lines 484-664)

The IRQ-related registers of `Mapper4`, together with the PPU fields that
`notifyA12` reads (`f_bgVisibility`, `f_spVisibility`, `scanline`) passed as
arguments, and the real `CPUState` for `requestIrq`. -/

/-- The `Mapper4` IRQ state (constructor lines 499-506). -/
structure Mapper4Irq where
  irqCounter : Nat
  irqLatchValue : Nat
  irqEnable : Nat
  irqReloadPending : Bool
  ppuA12Prev : Nat
  lastClockScanline : Int
deriving Repr, DecidableEq

/-- `Mapper4.clockIrqCounter` (mappers.js lines 634-647): reload from the
latch when the counter is 0 or a reload is pending; otherwise decrement,
requesting a normal CPU IRQ when the decrement reaches 0 with IRQs
enabled. -/
def Mapper4Irq.clockIrqCounter (m : Mapper4Irq) (cpu : CPUState) :
    Mapper4Irq × CPUState :=
  if m.irqCounter = 0 ∨ m.irqReloadPending then
    ({ m with irqCounter := m.irqLatchValue, irqReloadPending := false }, cpu)
  else
    let m1 := { m with irqCounter := m.irqCounter - 1 }
    if m1.irqCounter = 0 ∧ m.irqEnable ≠ 0 then (m1, CPU.requestIrq cpu 0)
    else (m1, cpu)

/-- `Mapper4.notifyA12` (mappers.js lines 649-664): clock the IRQ counter
on a 0-to-1 transition of A12, only while background or sprite rendering is
enabled and at most once per scanline; always record the new A12 level. -/
def Mapper4Irq.notifyA12 (m : Mapper4Irq) (cpu : CPUState)
    (f_bgVisibility f_spVisibility : Nat) (scanline : Int) (value : Nat) :
    Mapper4Irq × CPUState :=
  if value = 1 ∧ m.ppuA12Prev = 0 then
    if f_bgVisibility = 1 ∨ f_spVisibility = 1 then
      if m.lastClockScanline ≠ scanline then
        let r80 := m.clockIrqCounter cpu
        ({ r80.1 with lastClockScanline := scanline, ppuA12Prev := value }, r80.2)
      else ({ m with ppuA12Prev := value }, cpu)
    else ({ m with ppuA12Prev := value }, cpu)
  else ({ m with ppuA12Prev := value }, cpu)

/-! ## PPU register slices (`src/ppu.js`) -/

/-- `this.STATUS_VBLANK` (ppu.js line 14). -/
def STATUS_VBLANK : Nat := 7

/-- The state read and written by `readStatusRegister`/`setStatusFlag`: the
latched `$2002` byte lives in `this.nes.cpu.mem[0x2002]`, the two-write
toggle in `ppu.firstWrite`. -/
structure PpuStatusRegs where
  mem2002 : Nat
  firstWrite : Bool
deriving Repr, DecidableEq

/-- `PPU.setStatusFlag` (ppu.js lines 372-375), which only ever touches
`mem[0x2002]`. -/
def setStatusFlag (p : PpuStatusRegs) (flag : Nat) (value : Bool) :
    PpuStatusRegs :=
  let n := 1 <<< flag
  { p with mem2002 := (p.mem2002 &&& (255 - n)) ||| (if value then n else 0) }

/-- `PPU.readStatusRegister` (ppu.js lines 377-382): grab the `$2002` byte,
reset the write toggle, clear the VBlank flag, return the grabbed byte. -/
def readStatusRegister (p : PpuStatusRegs) : Nat × PpuStatusRegs :=
  let tmp := p.mem2002
  let p1 := { p with firstWrite := true }
  (tmp, setStatusFlag p1 STATUS_VBLANK false)

/-- The CPU-side effect of `PPU.startVBlank` (ppu.js lines 174-181): its
first statement is `this.nes.cpu.requestIrq(this.nes.cpu.IRQ_NMI)`,
unconditionally — `f_nmiOnVblank` is not consulted; the remaining
statements render the tail of the frame and hand the finished buffer to the
host UI, touching no CPU state. -/
def startVBlankCpuEffect (cpu : CPUState) : CPUState :=
  CPU.requestIrq cpu 1

/-! ## Sprite DMA (`PPU.sramDMA`, ppu.js lines 457-466)

The state that `sramDMA` and its callee `spriteRamWriteUpdate` (lines
1114-1125) read and write.  `spriteRamWriteUpdate` additionally re-runs
sprite-zero-hit detection (`checkSprite0`) when sprite 0 is written; that
routine reads the render buffers and writes only `spr0HitX`/`spr0HitY`,
fields outside this slice, and is omitted.  `cpuMem` is `this.nes.cpu.mem`,
which `sramDMA` indexes directly. -/

structure SpriteDmaState where
  cpuMem : Nat → Nat
  spriteMem : Nat → Nat
  sramAddress : Nat
  cyclesToHalt : Nat
  sprY : Nat → Nat
  sprTile : Nat → Nat
  sprCol : Nat → Nat
  sprX : Nat → Nat
  vertFlip : Nat → Bool
  horiFlip : Nat → Bool
  bgPriority : Nat → Bool

/-- `PPU.spriteRamWriteUpdate` (ppu.js lines 1114-1125), updating the
per-sprite attribute caches from an OAM byte write. -/
def spriteRamWriteUpdate (p : SpriteDmaState) (address value : Nat) :
    SpriteDmaState :=
  let tIndex := address / 4
  if address % 4 = 0 then
    { p with sprY := fun i => if i = tIndex then value else p.sprY i }
  else if address % 4 = 1 then
    { p with sprTile := fun i => if i = tIndex then value else p.sprTile i }
  else if address % 4 = 2 then
    { p with
        vertFlip := fun i => if i = tIndex then (value &&& 0x80) ≠ 0 else p.vertFlip i,
        horiFlip := fun i => if i = tIndex then (value &&& 0x40) ≠ 0 else p.horiFlip i,
        bgPriority := fun i => if i = tIndex then (value &&& 0x20) ≠ 0 else p.bgPriority i,
        sprCol := fun i => if i = tIndex then (value &&& 3) <<< 2 else p.sprCol i }
  else
    { p with sprX := fun i => if i = tIndex then value else p.sprX i }

/-- The loop of `sramDMA` (`for (let i = this.sramAddress; i < 256; i++)`),
with a structural fuel of 256 so the guard `i < 256` is the one that stops
the iteration. -/
def sramDMAIter (baseAddress : Nat) : Nat → Nat → SpriteDmaState → SpriteDmaState
  | 0, _, p => p
  | fuel + 1, i, p =>
    if i < 256 then
      let data := p.cpuMem (baseAddress + i)
      let p1 := { p with spriteMem := fun x => if x = i then data else p.spriteMem x }
      let p2 := spriteRamWriteUpdate p1 i data
      sramDMAIter baseAddress fuel (i + 1) p2
    else p

/-- `PPU.sramDMA` (ppu.js lines 457-466): copy CPU memory page
`value << 8`, starting at the current OAM address, into OAM, then halt the
CPU for 513 cycles (`haltCycles` adds to `cyclesToHalt`). -/
def sramDMA (p : SpriteDmaState) (value : Nat) : SpriteDmaState :=
  let baseAddress := value * 0x100
  let p1 := sramDMAIter baseAddress 256 p.sramAddress p
  { p1 with cyclesToHalt := p1.cyclesToHalt + 513 }

/-! ## Background tile-fetch count (`PPU.renderBgScanline`, ppu.js 573-702)

The mapper-facing selection at the top of the renderer. -/

/-- The base `Mapper` capability flag for mappers needing extra tile
fetches (mappers.js lines 9-10: `this.hasLatch = false`). -/
def Mapper.hasLatchDefault : Bool := false

/-- `Mapper9` (MMC2) sets `this.hasLatch = true` (mappers.js line 749). -/
def Mapper9.hasLatch : Bool := true

/-- `Mapper10` (MMC4) sets `this.hasLatch = true` (mappers.js line 955). -/
def Mapper10.hasLatch : Bool := true

/-- ppu.js line 574: `var isMMC2 = this.nes.rom && this.nes.rom.mapperType
=== 9` (with a ROM loaded) — a test of the ROM's mapper number. -/
def renderBgIsMMC2 (mapperType : Nat) : Bool :=
  mapperType == 9

/-- ppu.js line 605: `var tileCount = isMMC2 ? 34 : 32` — the number of
iterations of the background tile-fetch loop of `renderBgScanline`. -/
def renderBgTileCount (mapperType : Nat) : Nat :=
  if renderBgIsMMC2 mapperType then 34 else 32

/-! ## The iNES loader (`ROM.load`, rom.js lines 71-140)

The ROM file `data` is a JavaScript string of char codes, modelled as a
`List Nat`.  `load` throws (here: `none`) exactly when
`data.indexOf("NES\x1a") === -1`; on any other input it runs to completion
and sets `valid = true`.  `charCodeAt` past the end of the string gives
`NaN`, and `NaN & 0xff` is `0`.  The PRG loop advances `offset` by 16384
per bank and the CHR loop by 4096 per bank whether or not the inner loop
broke early, so bank `i` reads file offsets `start + bankSize * i + j`; an
entry is assigned only while `offset + j < data.length` and stays
`undefined` (here: `none`) otherwise.  The tile-cache construction (lines
119-137) builds `vromTile` from `vrom` through the `Tile` class, whose
source file is not part of the repository; it reads only `vrom`, assigns
only `vromTile`, and cannot fail, so it is not carried in this state. -/

/-- The char codes of `"NES\x1a"`. -/
def magicBytes : List Nat := [0x4e, 0x45, 0x53, 0x1a]

/-- Does `needle` occur at the head of `hay`? -/
def listStartsWith : List Nat → List Nat → Bool
  | [], _ => true
  | _ :: _, [] => false
  | n :: ns, d :: ds => n == d && listStartsWith ns ds

/-- `hay.indexOf(needle) !== -1`: does `needle` occur contiguously anywhere
in `hay`? -/
def containsSeq (needle : List Nat) : List Nat → Bool
  | [] => listStartsWith needle []
  | d :: ds => listStartsWith needle (d :: ds) || containsSeq needle ds

/-- `data.indexOf("NES\x1a") !== -1` (rom.js line 72). -/
def containsMagic (data : List Nat) : Bool :=
  containsSeq magicBytes data

/-- `data.charCodeAt(i) & 0xff`, with `NaN & 0xff = 0` past the end. -/
def charCodeAnd255 (data : List Nat) (i : Nat) : Nat :=
  (data.getD i 0) &&& 0xff

/-- The fields of the `ROM` object that `load` assigns (rom.js lines
56-68 declare them; `valid` starts `false`). -/
structure RomState where
  header : List Nat
  romCount : Nat
  vromCount : Nat
  mirroring : Nat
  batteryRam : Bool
  trainer : Bool
  fourScreen : Bool
  mapperType : Nat
  prgAt : Nat → Nat → Option Nat
  chrAt : Nat → Nat → Option Nat
  valid : Bool

/-- `ROM.load` (rom.js lines 71-140).  `none` models the
`"Not a valid NES ROM."` throw; every other input runs to the final
`this.valid = true`. -/
def ROMload (data : List Nat) : Option RomState :=
  if containsMagic data = false then none
  else
    let header := (List.range 16).map (charCodeAnd255 data)
    let h4 := charCodeAnd255 data 4
    let h5 := charCodeAnd255 data 5
    let h6 := charCodeAnd255 data 6
    let h7 := charCodeAnd255 data 7
    let romCount := h4
    let vromCount := h5 * 2
    let mapperType0 := (h6 >>> 4) ||| (h7 &&& 0xf0)
    let foundError := (List.range 8).any (fun k => charCodeAnd255 data (8 + k) ≠ 0)
    let mapperType := if foundError then mapperType0 &&& 0xf else mapperType0
    let chrBase := 16 + 16384 * romCount
    some {
      header := header
      romCount := romCount
      vromCount := vromCount
      mirroring := if h6 &&& 1 ≠ 0 then 1 else 0
      batteryRam := h6 &&& 2 ≠ 0
      trainer := h6 &&& 4 ≠ 0
      fourScreen := h6 &&& 8 ≠ 0
      mapperType := mapperType
      prgAt := fun i j =>
        if i < romCount ∧ j < 16384 ∧ 16 + 16384 * i + j < data.length
        then some (charCodeAnd255 data (16 + 16384 * i + j)) else none
      chrAt := fun i j =>
        if i < vromCount ∧ j < 4096 ∧ chrBase + 4096 * i + j < data.length
        then some (charCodeAnd255 data (chrBase + 4096 * i + j)) else none
      valid := true }


namespace CPU

/-- The state of affairs in which the early return of `CPU.emulate`'s RTI case
(case 41) exits with a dirty status: the status byte pulled from the stack had
bit 5 clear, and the pulled return address is 0xffff (so the early return skips
the `F_NOTUSED = 1` repair). -/
def rtiDirtyExit {σ : Type} (B : Bus σ) (s : CPUState) (w : σ) : Prop :=
  let r1 := CPU.pull B s w
  let r2 := CPU.pull B r1.2.1 r1.2.2
  let r3 := CPU.pull B r2.2.1 r2.2.2
  (r1.1 >>> 5) &&& 1 = 0 ∧ r2.1 + (r3.1 <<< 8) = 0xffff

/-- Invariant of one instruction case: the stack pointer stays in range (it is
either untouched or freshly masked to 8 bits), and `F_NOTUSED` is untouched,
set to 1, or the escape hatch `dirty` holds. -/
abbrev stepInv {σ : Type} (s : CPUState) (dirty : Prop) (r : CPUState × σ × Nat) : Prop :=
  (r.1.REG_SP = s.REG_SP ∨ r.1.REG_SP ≤ 0xff) ∧
  (r.1.F_NOTUSED = s.F_NOTUSED ∨ r.1.F_NOTUSED = 1 ∨ dirty)

/-- The fetched instruction of this `emulate` step is RTI and its three stack
pulls exit through the dirty early return (pulled status with bit 5 clear,
pulled return address 0xffff). -/
def emulateRtiDirty {σ : Type} (B : Bus σ) (s0 : CPUState) (w0 : σ) : Prop :=
  let r77 := emulateIrqPhase B s0 w0
  let r78 := B.mmapLoad r77.2 (r77.1.REG_PC + 1)
  let opinf := OPDATA r78.1
  let addrMode := (opinf >>> 8) &&& 0xff
  let opaddr : Int := r77.1.REG_PC
  let pc1 : Int := r77.1.REG_PC + (((opinf >>> 16) &&& 0xff : Nat) : Int)
  let r79 := fetchAddress B r77.1 r78.2 addrMode opaddr pc1
  decodeInstr (opinf &&& 0xff) = .kRTI ∧
    rtiDirtyExit B { r77.1 with REG_PC := pc1 } r79.2.2

end CPU

/-- Memory for the C5 counterexample: RTI opcode at $8000, a stack holding
status byte $00 and return address $FFFF, and a PHP opcode at $0000 (where
the fetch after `PC = 0xffff` wraps to). -/
def c5mem0 : Nat → Nat := fun a =>
  if a = 0x8000 then 0x40
  else if a = 0x1fd then 0x00
  else if a = 0x1fe then 0xff
  else if a = 0x1ff then 0xff
  else if a = 0 then 0x08
  else 0

/-- CPU state for the C5 counterexample: about to fetch from $8000 with three
bytes on the stack. -/
def c5cpu0 : CPUState := { resetState with REG_SP := 0xfc, REG_PC := 0x7fff }

/-- Memory for the C3 branch scenarios: a branch opcode at $8000 with relative
operand $70, so a taken branch lands at $8071 — a different 256-byte page from
the opcode address $7FFF the source compares against. -/
def c3mem (op : Nat) : Nat → Nat := fun a =>
  if a = 0x8000 then op else if a = 0x8001 then 0x70 else 0

/-- CPU state for the taken-BMI scenario (`F_SIGN` set; `resetState` already
has `F_ZERO = 1`, which is what the source's BNE case tests for "taken"). -/
def c3cpuBMI : CPUState := { resetState with F_SIGN := 1 }

namespace CPU

/-- Memory for the C4 scenario: `JMP ($10FF)` at $8000; the pointer page is
$10xx, so the low vector byte lives at $10FF (mirrored to $0FF in raw RAM)
and the page-wrap bug reads the high byte from $1000, not $1100. -/
def c4mem : Nat → Nat := fun a =>
  if a = 0x8000 then 0x6c
  else if a = 0x8001 then 0xff
  else if a = 0x8002 then 0x10
  else if a = 0x0ff then 0x33
  else if a = 0x1000 then 0x12
  else if a = 0x1100 then 0x77
  else 0

end CPU

/-- A concrete MMC3 IRQ state for the C2 witness: counter 1, IRQs enabled, A12
previously low, last clock on a different scanline. -/
def c2m0 : Mapper4Irq :=
  { irqCounter := 1, irqLatchValue := 5, irqEnable := 1,
    irqReloadPending := false, ppuA12Prev := 0, lastClockScanline := -1 }

/-- A sprite-DMA state with OAM address 1 for the C7 counterexample: CPU
memory holds 7 everywhere, OAM holds 0 everywhere. -/
def c7p0 : SpriteDmaState :=
  { cpuMem := fun _ => 7, spriteMem := fun _ => 0, sramAddress := 1,
    cyclesToHalt := 0, sprY := fun _ => 0, sprTile := fun _ => 0,
    sprCol := fun _ => 0, sprX := fun _ => 0, vertFlip := fun _ => false,
    horiFlip := fun _ => false, bgPriority := fun _ => false }

/-- The same sprite-DMA state but with OAM address 0, for the C7 witness. -/
def c7p1 : SpriteDmaState := { c7p0 with sramAddress := 0 }

/-- Memory for the taken-NMI side of C10: PPUCTRL bit 7 set, NMI vector
$1234 at $FFFA/$FFFB. -/
def c10mem : Nat → Nat := fun a =>
  if a = 0x2000 then 0x80 else if a = 0xfffa then 0x34
  else if a = 0xfffb then 0x12 else 0

/-- A CPU with a pending VBlank NMI. -/
def c10cpu : CPUState := { resetState with irqRequested := true, irqType := some 1 }

/-- A CPU with a pending VBlank NMI and a stale `F_BRK_NEW = 0`, for the C10
counterexample. -/
def c10cpuD : CPUState :=
  { resetState with irqRequested := true, irqType := some 1, F_BRK_NEW := 0 }

/-- All-zero memory: PPUCTRL bit 7 clear, so the pending NMI is discarded. -/
def c10memD : Nat → Nat := fun _ => 0

/-! # Theorems

Everything below is a proof about the definitions above: the per-claim
theorems, their witnesses and counterexamples, and the shared helper
lemmas they build on. -/

namespace CPU

/-- The tail of the RTI case, over abstract pulled values. -/
theorem rtiTail_inv {σ : Type} (s0 s4 : CPUState) (wf : σ) (lo hi cc' : Nat) (d : Prop)
    (hsp : s4.REG_SP ≤ 0xff)
    (hnu : s4.F_NOTUSED = 1 ∨ (lo + (hi <<< 8) = 0xffff → d)) :
    stepInv s0 d
      (let s5 : CPUState := { s4 with REG_PC := ((lo + (hi <<< 8) : Nat) : Int) }
       if s5.REG_PC = 0xffff then (s5, wf, cc')
       else ({ s5 with REG_PC := s5.REG_PC - 1, F_NOTUSED := 1 }, wf, cc')) := by
  dsimp only
  split
  · rename_i hpc
    refine ⟨Or.inr hsp, ?_⟩
    rcases hnu with h1 | himp
    · exact Or.inr (Or.inl h1)
    · exact Or.inr (Or.inr (himp (by exact_mod_cast hpc)))
  · exact ⟨Or.inr hsp, Or.inr (Or.inl rfl)⟩

/-- `stepInv` for `execADC`. -/
theorem execADC_inv {σ : Type} (B : Bus σ) (s : CPUState) (w : σ)
    (addrMode addr : Nat) (opaddr : Int) (cc ca : Nat) (d : Prop) :
    stepInv s d (execADC B s w addrMode addr opaddr cc ca) := by
  unfold execADC
  repeat' split
  all_goals refine ⟨?_, ?_⟩
  all_goals first
    | exact Or.inl rfl
    | exact Or.inr Nat.and_le_right
    | exact Or.inr (Or.inl rfl)

/-- `stepInv` for `execAND`. -/
theorem execAND_inv {σ : Type} (B : Bus σ) (s : CPUState) (w : σ)
    (addrMode addr : Nat) (opaddr : Int) (cc ca : Nat) (d : Prop) :
    stepInv s d (execAND B s w addrMode addr opaddr cc ca) := by
  unfold execAND
  repeat' split
  all_goals refine ⟨?_, ?_⟩
  all_goals first
    | exact Or.inl rfl
    | exact Or.inr Nat.and_le_right
    | exact Or.inr (Or.inl rfl)

/-- `stepInv` for `execASL`. -/
theorem execASL_inv {σ : Type} (B : Bus σ) (s : CPUState) (w : σ)
    (addrMode addr : Nat) (opaddr : Int) (cc ca : Nat) (d : Prop) :
    stepInv s d (execASL B s w addrMode addr opaddr cc ca) := by
  unfold execASL
  repeat' split
  all_goals refine ⟨?_, ?_⟩
  all_goals first
    | exact Or.inl rfl
    | exact Or.inr Nat.and_le_right
    | exact Or.inr (Or.inl rfl)

/-- `stepInv` for `execBCC`. -/
theorem execBCC_inv {σ : Type} (B : Bus σ) (s : CPUState) (w : σ)
    (addrMode addr : Nat) (opaddr : Int) (cc ca : Nat) (d : Prop) :
    stepInv s d (execBCC B s w addrMode addr opaddr cc ca) := by
  unfold execBCC
  repeat' split
  all_goals refine ⟨?_, ?_⟩
  all_goals first
    | exact Or.inl rfl
    | exact Or.inr Nat.and_le_right
    | exact Or.inr (Or.inl rfl)

/-- `stepInv` for `execBCS`. -/
theorem execBCS_inv {σ : Type} (B : Bus σ) (s : CPUState) (w : σ)
    (addrMode addr : Nat) (opaddr : Int) (cc ca : Nat) (d : Prop) :
    stepInv s d (execBCS B s w addrMode addr opaddr cc ca) := by
  unfold execBCS
  repeat' split
  all_goals refine ⟨?_, ?_⟩
  all_goals first
    | exact Or.inl rfl
    | exact Or.inr Nat.and_le_right
    | exact Or.inr (Or.inl rfl)

/-- `stepInv` for `execBEQ`. -/
theorem execBEQ_inv {σ : Type} (B : Bus σ) (s : CPUState) (w : σ)
    (addrMode addr : Nat) (opaddr : Int) (cc ca : Nat) (d : Prop) :
    stepInv s d (execBEQ B s w addrMode addr opaddr cc ca) := by
  unfold execBEQ
  repeat' split
  all_goals refine ⟨?_, ?_⟩
  all_goals first
    | exact Or.inl rfl
    | exact Or.inr Nat.and_le_right
    | exact Or.inr (Or.inl rfl)

/-- `stepInv` for `execBIT`. -/
theorem execBIT_inv {σ : Type} (B : Bus σ) (s : CPUState) (w : σ)
    (addrMode addr : Nat) (opaddr : Int) (cc ca : Nat) (d : Prop) :
    stepInv s d (execBIT B s w addrMode addr opaddr cc ca) := by
  unfold execBIT
  repeat' split
  all_goals refine ⟨?_, ?_⟩
  all_goals first
    | exact Or.inl rfl
    | exact Or.inr Nat.and_le_right
    | exact Or.inr (Or.inl rfl)

/-- `stepInv` for `execBMI`. -/
theorem execBMI_inv {σ : Type} (B : Bus σ) (s : CPUState) (w : σ)
    (addrMode addr : Nat) (opaddr : Int) (cc ca : Nat) (d : Prop) :
    stepInv s d (execBMI B s w addrMode addr opaddr cc ca) := by
  unfold execBMI
  repeat' split
  all_goals refine ⟨?_, ?_⟩
  all_goals first
    | exact Or.inl rfl
    | exact Or.inr Nat.and_le_right
    | exact Or.inr (Or.inl rfl)

/-- `stepInv` for `execBNE`. -/
theorem execBNE_inv {σ : Type} (B : Bus σ) (s : CPUState) (w : σ)
    (addrMode addr : Nat) (opaddr : Int) (cc ca : Nat) (d : Prop) :
    stepInv s d (execBNE B s w addrMode addr opaddr cc ca) := by
  unfold execBNE
  repeat' split
  all_goals refine ⟨?_, ?_⟩
  all_goals first
    | exact Or.inl rfl
    | exact Or.inr Nat.and_le_right
    | exact Or.inr (Or.inl rfl)

/-- `stepInv` for `execBPL`. -/
theorem execBPL_inv {σ : Type} (B : Bus σ) (s : CPUState) (w : σ)
    (addrMode addr : Nat) (opaddr : Int) (cc ca : Nat) (d : Prop) :
    stepInv s d (execBPL B s w addrMode addr opaddr cc ca) := by
  unfold execBPL
  repeat' split
  all_goals refine ⟨?_, ?_⟩
  all_goals first
    | exact Or.inl rfl
    | exact Or.inr Nat.and_le_right
    | exact Or.inr (Or.inl rfl)

/-- `stepInv` for `execBRK`. -/
theorem execBRK_inv {σ : Type} (B : Bus σ) (s : CPUState) (w : σ)
    (addrMode addr : Nat) (opaddr : Int) (cc ca : Nat) (d : Prop) :
    stepInv s d (execBRK B s w addrMode addr opaddr cc ca) := by
  unfold execBRK
  repeat' split
  all_goals refine ⟨?_, ?_⟩
  all_goals first
    | exact Or.inl rfl
    | exact Or.inr Nat.and_le_right
    | exact Or.inr (Or.inl rfl)

/-- `stepInv` for `execBVC`. -/
theorem execBVC_inv {σ : Type} (B : Bus σ) (s : CPUState) (w : σ)
    (addrMode addr : Nat) (opaddr : Int) (cc ca : Nat) (d : Prop) :
    stepInv s d (execBVC B s w addrMode addr opaddr cc ca) := by
  unfold execBVC
  repeat' split
  all_goals refine ⟨?_, ?_⟩
  all_goals first
    | exact Or.inl rfl
    | exact Or.inr Nat.and_le_right
    | exact Or.inr (Or.inl rfl)

/-- `stepInv` for `execBVS`. -/
theorem execBVS_inv {σ : Type} (B : Bus σ) (s : CPUState) (w : σ)
    (addrMode addr : Nat) (opaddr : Int) (cc ca : Nat) (d : Prop) :
    stepInv s d (execBVS B s w addrMode addr opaddr cc ca) := by
  unfold execBVS
  repeat' split
  all_goals refine ⟨?_, ?_⟩
  all_goals first
    | exact Or.inl rfl
    | exact Or.inr Nat.and_le_right
    | exact Or.inr (Or.inl rfl)

/-- `stepInv` for `execCLC`. -/
theorem execCLC_inv {σ : Type} (B : Bus σ) (s : CPUState) (w : σ)
    (addrMode addr : Nat) (opaddr : Int) (cc ca : Nat) (d : Prop) :
    stepInv s d (execCLC B s w addrMode addr opaddr cc ca) := by
  unfold execCLC
  repeat' split
  all_goals refine ⟨?_, ?_⟩
  all_goals first
    | exact Or.inl rfl
    | exact Or.inr Nat.and_le_right
    | exact Or.inr (Or.inl rfl)

/-- `stepInv` for `execCLD`. -/
theorem execCLD_inv {σ : Type} (B : Bus σ) (s : CPUState) (w : σ)
    (addrMode addr : Nat) (opaddr : Int) (cc ca : Nat) (d : Prop) :
    stepInv s d (execCLD B s w addrMode addr opaddr cc ca) := by
  unfold execCLD
  repeat' split
  all_goals refine ⟨?_, ?_⟩
  all_goals first
    | exact Or.inl rfl
    | exact Or.inr Nat.and_le_right
    | exact Or.inr (Or.inl rfl)

/-- `stepInv` for `execCLI`. -/
theorem execCLI_inv {σ : Type} (B : Bus σ) (s : CPUState) (w : σ)
    (addrMode addr : Nat) (opaddr : Int) (cc ca : Nat) (d : Prop) :
    stepInv s d (execCLI B s w addrMode addr opaddr cc ca) := by
  unfold execCLI
  repeat' split
  all_goals refine ⟨?_, ?_⟩
  all_goals first
    | exact Or.inl rfl
    | exact Or.inr Nat.and_le_right
    | exact Or.inr (Or.inl rfl)

/-- `stepInv` for `execCLV`. -/
theorem execCLV_inv {σ : Type} (B : Bus σ) (s : CPUState) (w : σ)
    (addrMode addr : Nat) (opaddr : Int) (cc ca : Nat) (d : Prop) :
    stepInv s d (execCLV B s w addrMode addr opaddr cc ca) := by
  unfold execCLV
  repeat' split
  all_goals refine ⟨?_, ?_⟩
  all_goals first
    | exact Or.inl rfl
    | exact Or.inr Nat.and_le_right
    | exact Or.inr (Or.inl rfl)

/-- `stepInv` for `execCMP`. -/
theorem execCMP_inv {σ : Type} (B : Bus σ) (s : CPUState) (w : σ)
    (addrMode addr : Nat) (opaddr : Int) (cc ca : Nat) (d : Prop) :
    stepInv s d (execCMP B s w addrMode addr opaddr cc ca) := by
  unfold execCMP
  repeat' split
  all_goals refine ⟨?_, ?_⟩
  all_goals first
    | exact Or.inl rfl
    | exact Or.inr Nat.and_le_right
    | exact Or.inr (Or.inl rfl)

/-- `stepInv` for `execCPX`. -/
theorem execCPX_inv {σ : Type} (B : Bus σ) (s : CPUState) (w : σ)
    (addrMode addr : Nat) (opaddr : Int) (cc ca : Nat) (d : Prop) :
    stepInv s d (execCPX B s w addrMode addr opaddr cc ca) := by
  unfold execCPX
  repeat' split
  all_goals refine ⟨?_, ?_⟩
  all_goals first
    | exact Or.inl rfl
    | exact Or.inr Nat.and_le_right
    | exact Or.inr (Or.inl rfl)

/-- `stepInv` for `execCPY`. -/
theorem execCPY_inv {σ : Type} (B : Bus σ) (s : CPUState) (w : σ)
    (addrMode addr : Nat) (opaddr : Int) (cc ca : Nat) (d : Prop) :
    stepInv s d (execCPY B s w addrMode addr opaddr cc ca) := by
  unfold execCPY
  repeat' split
  all_goals refine ⟨?_, ?_⟩
  all_goals first
    | exact Or.inl rfl
    | exact Or.inr Nat.and_le_right
    | exact Or.inr (Or.inl rfl)

/-- `stepInv` for `execDEC`. -/
theorem execDEC_inv {σ : Type} (B : Bus σ) (s : CPUState) (w : σ)
    (addrMode addr : Nat) (opaddr : Int) (cc ca : Nat) (d : Prop) :
    stepInv s d (execDEC B s w addrMode addr opaddr cc ca) := by
  unfold execDEC
  repeat' split
  all_goals refine ⟨?_, ?_⟩
  all_goals first
    | exact Or.inl rfl
    | exact Or.inr Nat.and_le_right
    | exact Or.inr (Or.inl rfl)

/-- `stepInv` for `execDEX`. -/
theorem execDEX_inv {σ : Type} (B : Bus σ) (s : CPUState) (w : σ)
    (addrMode addr : Nat) (opaddr : Int) (cc ca : Nat) (d : Prop) :
    stepInv s d (execDEX B s w addrMode addr opaddr cc ca) := by
  unfold execDEX
  repeat' split
  all_goals refine ⟨?_, ?_⟩
  all_goals first
    | exact Or.inl rfl
    | exact Or.inr Nat.and_le_right
    | exact Or.inr (Or.inl rfl)

/-- `stepInv` for `execDEY`. -/
theorem execDEY_inv {σ : Type} (B : Bus σ) (s : CPUState) (w : σ)
    (addrMode addr : Nat) (opaddr : Int) (cc ca : Nat) (d : Prop) :
    stepInv s d (execDEY B s w addrMode addr opaddr cc ca) := by
  unfold execDEY
  repeat' split
  all_goals refine ⟨?_, ?_⟩
  all_goals first
    | exact Or.inl rfl
    | exact Or.inr Nat.and_le_right
    | exact Or.inr (Or.inl rfl)

/-- `stepInv` for `execEOR`. -/
theorem execEOR_inv {σ : Type} (B : Bus σ) (s : CPUState) (w : σ)
    (addrMode addr : Nat) (opaddr : Int) (cc ca : Nat) (d : Prop) :
    stepInv s d (execEOR B s w addrMode addr opaddr cc ca) := by
  unfold execEOR
  repeat' split
  all_goals refine ⟨?_, ?_⟩
  all_goals first
    | exact Or.inl rfl
    | exact Or.inr Nat.and_le_right
    | exact Or.inr (Or.inl rfl)

/-- `stepInv` for `execINC`. -/
theorem execINC_inv {σ : Type} (B : Bus σ) (s : CPUState) (w : σ)
    (addrMode addr : Nat) (opaddr : Int) (cc ca : Nat) (d : Prop) :
    stepInv s d (execINC B s w addrMode addr opaddr cc ca) := by
  unfold execINC
  repeat' split
  all_goals refine ⟨?_, ?_⟩
  all_goals first
    | exact Or.inl rfl
    | exact Or.inr Nat.and_le_right
    | exact Or.inr (Or.inl rfl)

/-- `stepInv` for `execINX`. -/
theorem execINX_inv {σ : Type} (B : Bus σ) (s : CPUState) (w : σ)
    (addrMode addr : Nat) (opaddr : Int) (cc ca : Nat) (d : Prop) :
    stepInv s d (execINX B s w addrMode addr opaddr cc ca) := by
  unfold execINX
  repeat' split
  all_goals refine ⟨?_, ?_⟩
  all_goals first
    | exact Or.inl rfl
    | exact Or.inr Nat.and_le_right
    | exact Or.inr (Or.inl rfl)

/-- `stepInv` for `execINY`. -/
theorem execINY_inv {σ : Type} (B : Bus σ) (s : CPUState) (w : σ)
    (addrMode addr : Nat) (opaddr : Int) (cc ca : Nat) (d : Prop) :
    stepInv s d (execINY B s w addrMode addr opaddr cc ca) := by
  unfold execINY
  repeat' split
  all_goals refine ⟨?_, ?_⟩
  all_goals first
    | exact Or.inl rfl
    | exact Or.inr Nat.and_le_right
    | exact Or.inr (Or.inl rfl)

/-- `stepInv` for `execJMP`. -/
theorem execJMP_inv {σ : Type} (B : Bus σ) (s : CPUState) (w : σ)
    (addrMode addr : Nat) (opaddr : Int) (cc ca : Nat) (d : Prop) :
    stepInv s d (execJMP B s w addrMode addr opaddr cc ca) := by
  unfold execJMP
  repeat' split
  all_goals refine ⟨?_, ?_⟩
  all_goals first
    | exact Or.inl rfl
    | exact Or.inr Nat.and_le_right
    | exact Or.inr (Or.inl rfl)

/-- `stepInv` for `execJSR`. -/
theorem execJSR_inv {σ : Type} (B : Bus σ) (s : CPUState) (w : σ)
    (addrMode addr : Nat) (opaddr : Int) (cc ca : Nat) (d : Prop) :
    stepInv s d (execJSR B s w addrMode addr opaddr cc ca) := by
  unfold execJSR
  repeat' split
  all_goals refine ⟨?_, ?_⟩
  all_goals first
    | exact Or.inl rfl
    | exact Or.inr Nat.and_le_right
    | exact Or.inr (Or.inl rfl)

/-- `stepInv` for `execLDA`. -/
theorem execLDA_inv {σ : Type} (B : Bus σ) (s : CPUState) (w : σ)
    (addrMode addr : Nat) (opaddr : Int) (cc ca : Nat) (d : Prop) :
    stepInv s d (execLDA B s w addrMode addr opaddr cc ca) := by
  unfold execLDA
  repeat' split
  all_goals refine ⟨?_, ?_⟩
  all_goals first
    | exact Or.inl rfl
    | exact Or.inr Nat.and_le_right
    | exact Or.inr (Or.inl rfl)

/-- `stepInv` for `execLDX`. -/
theorem execLDX_inv {σ : Type} (B : Bus σ) (s : CPUState) (w : σ)
    (addrMode addr : Nat) (opaddr : Int) (cc ca : Nat) (d : Prop) :
    stepInv s d (execLDX B s w addrMode addr opaddr cc ca) := by
  unfold execLDX
  repeat' split
  all_goals refine ⟨?_, ?_⟩
  all_goals first
    | exact Or.inl rfl
    | exact Or.inr Nat.and_le_right
    | exact Or.inr (Or.inl rfl)

/-- `stepInv` for `execLDY`. -/
theorem execLDY_inv {σ : Type} (B : Bus σ) (s : CPUState) (w : σ)
    (addrMode addr : Nat) (opaddr : Int) (cc ca : Nat) (d : Prop) :
    stepInv s d (execLDY B s w addrMode addr opaddr cc ca) := by
  unfold execLDY
  repeat' split
  all_goals refine ⟨?_, ?_⟩
  all_goals first
    | exact Or.inl rfl
    | exact Or.inr Nat.and_le_right
    | exact Or.inr (Or.inl rfl)

/-- `stepInv` for `execLSR`. -/
theorem execLSR_inv {σ : Type} (B : Bus σ) (s : CPUState) (w : σ)
    (addrMode addr : Nat) (opaddr : Int) (cc ca : Nat) (d : Prop) :
    stepInv s d (execLSR B s w addrMode addr opaddr cc ca) := by
  unfold execLSR
  repeat' split
  all_goals refine ⟨?_, ?_⟩
  all_goals first
    | exact Or.inl rfl
    | exact Or.inr Nat.and_le_right
    | exact Or.inr (Or.inl rfl)

/-- `stepInv` for `execNOP`. -/
theorem execNOP_inv {σ : Type} (B : Bus σ) (s : CPUState) (w : σ)
    (addrMode addr : Nat) (opaddr : Int) (cc ca : Nat) (d : Prop) :
    stepInv s d (execNOP B s w addrMode addr opaddr cc ca) := by
  unfold execNOP
  repeat' split
  all_goals refine ⟨?_, ?_⟩
  all_goals first
    | exact Or.inl rfl
    | exact Or.inr Nat.and_le_right
    | exact Or.inr (Or.inl rfl)

/-- `stepInv` for `execORA`. -/
theorem execORA_inv {σ : Type} (B : Bus σ) (s : CPUState) (w : σ)
    (addrMode addr : Nat) (opaddr : Int) (cc ca : Nat) (d : Prop) :
    stepInv s d (execORA B s w addrMode addr opaddr cc ca) := by
  unfold execORA
  repeat' split
  all_goals refine ⟨?_, ?_⟩
  all_goals first
    | exact Or.inl rfl
    | exact Or.inr Nat.and_le_right
    | exact Or.inr (Or.inl rfl)

/-- `stepInv` for `execPHA`. -/
theorem execPHA_inv {σ : Type} (B : Bus σ) (s : CPUState) (w : σ)
    (addrMode addr : Nat) (opaddr : Int) (cc ca : Nat) (d : Prop) :
    stepInv s d (execPHA B s w addrMode addr opaddr cc ca) := by
  unfold execPHA
  repeat' split
  all_goals refine ⟨?_, ?_⟩
  all_goals first
    | exact Or.inl rfl
    | exact Or.inr Nat.and_le_right
    | exact Or.inr (Or.inl rfl)

/-- `stepInv` for `execPHP`. -/
theorem execPHP_inv {σ : Type} (B : Bus σ) (s : CPUState) (w : σ)
    (addrMode addr : Nat) (opaddr : Int) (cc ca : Nat) (d : Prop) :
    stepInv s d (execPHP B s w addrMode addr opaddr cc ca) := by
  unfold execPHP
  repeat' split
  all_goals refine ⟨?_, ?_⟩
  all_goals first
    | exact Or.inl rfl
    | exact Or.inr Nat.and_le_right
    | exact Or.inr (Or.inl rfl)

/-- `stepInv` for `execPLA`. -/
theorem execPLA_inv {σ : Type} (B : Bus σ) (s : CPUState) (w : σ)
    (addrMode addr : Nat) (opaddr : Int) (cc ca : Nat) (d : Prop) :
    stepInv s d (execPLA B s w addrMode addr opaddr cc ca) := by
  unfold execPLA
  repeat' split
  all_goals refine ⟨?_, ?_⟩
  all_goals first
    | exact Or.inl rfl
    | exact Or.inr Nat.and_le_right
    | exact Or.inr (Or.inl rfl)

/-- `stepInv` for `execPLP`. -/
theorem execPLP_inv {σ : Type} (B : Bus σ) (s : CPUState) (w : σ)
    (addrMode addr : Nat) (opaddr : Int) (cc ca : Nat) (d : Prop) :
    stepInv s d (execPLP B s w addrMode addr opaddr cc ca) := by
  unfold execPLP
  repeat' split
  all_goals refine ⟨?_, ?_⟩
  all_goals first
    | exact Or.inl rfl
    | exact Or.inr Nat.and_le_right
    | exact Or.inr (Or.inl rfl)

/-- `stepInv` for `execROL`. -/
theorem execROL_inv {σ : Type} (B : Bus σ) (s : CPUState) (w : σ)
    (addrMode addr : Nat) (opaddr : Int) (cc ca : Nat) (d : Prop) :
    stepInv s d (execROL B s w addrMode addr opaddr cc ca) := by
  unfold execROL
  repeat' split
  all_goals refine ⟨?_, ?_⟩
  all_goals first
    | exact Or.inl rfl
    | exact Or.inr Nat.and_le_right
    | exact Or.inr (Or.inl rfl)

/-- `stepInv` for `execROR`. -/
theorem execROR_inv {σ : Type} (B : Bus σ) (s : CPUState) (w : σ)
    (addrMode addr : Nat) (opaddr : Int) (cc ca : Nat) (d : Prop) :
    stepInv s d (execROR B s w addrMode addr opaddr cc ca) := by
  unfold execROR
  repeat' split
  all_goals refine ⟨?_, ?_⟩
  all_goals first
    | exact Or.inl rfl
    | exact Or.inr Nat.and_le_right
    | exact Or.inr (Or.inl rfl)

/-- `stepInv` for `execRTI`: the RTI case keeps the invariant, with the dirty
early exit routed into the escape hatch. -/
theorem execRTI_inv {σ : Type} (B : Bus σ) (s : CPUState) (w : σ)
    (addrMode addr : Nat) (opaddr : Int) (cc ca : Nat) (d : Prop)
    (hd : rtiDirtyExit B s w → d) :
    stepInv s d (execRTI B s w addrMode addr opaddr cc ca) := by
  unfold execRTI
  refine rtiTail_inv s _ _ _ _ cc d Nat.and_le_right ?_
  rcases Nat.le_one_iff_eq_zero_or_eq_one.mp
      (@Nat.and_le_right ((pull B s w).1 >>> 5) 1) with hb | hb
  · exact Or.inr (fun hpc => hd ⟨hb, hpc⟩)
  · exact Or.inl hb

/-- `stepInv` for `execRTS`. -/
theorem execRTS_inv {σ : Type} (B : Bus σ) (s : CPUState) (w : σ)
    (addrMode addr : Nat) (opaddr : Int) (cc ca : Nat) (d : Prop) :
    stepInv s d (execRTS B s w addrMode addr opaddr cc ca) := by
  unfold execRTS
  repeat' split
  all_goals refine ⟨?_, ?_⟩
  all_goals first
    | exact Or.inl rfl
    | exact Or.inr Nat.and_le_right
    | exact Or.inr (Or.inl rfl)

/-- `stepInv` for `execSBC`. -/
theorem execSBC_inv {σ : Type} (B : Bus σ) (s : CPUState) (w : σ)
    (addrMode addr : Nat) (opaddr : Int) (cc ca : Nat) (d : Prop) :
    stepInv s d (execSBC B s w addrMode addr opaddr cc ca) := by
  unfold execSBC
  repeat' split
  all_goals refine ⟨?_, ?_⟩
  all_goals first
    | exact Or.inl rfl
    | exact Or.inr Nat.and_le_right
    | exact Or.inr (Or.inl rfl)

/-- `stepInv` for `execSEC`. -/
theorem execSEC_inv {σ : Type} (B : Bus σ) (s : CPUState) (w : σ)
    (addrMode addr : Nat) (opaddr : Int) (cc ca : Nat) (d : Prop) :
    stepInv s d (execSEC B s w addrMode addr opaddr cc ca) := by
  unfold execSEC
  repeat' split
  all_goals refine ⟨?_, ?_⟩
  all_goals first
    | exact Or.inl rfl
    | exact Or.inr Nat.and_le_right
    | exact Or.inr (Or.inl rfl)

/-- `stepInv` for `execSED`. -/
theorem execSED_inv {σ : Type} (B : Bus σ) (s : CPUState) (w : σ)
    (addrMode addr : Nat) (opaddr : Int) (cc ca : Nat) (d : Prop) :
    stepInv s d (execSED B s w addrMode addr opaddr cc ca) := by
  unfold execSED
  repeat' split
  all_goals refine ⟨?_, ?_⟩
  all_goals first
    | exact Or.inl rfl
    | exact Or.inr Nat.and_le_right
    | exact Or.inr (Or.inl rfl)

/-- `stepInv` for `execSEI`. -/
theorem execSEI_inv {σ : Type} (B : Bus σ) (s : CPUState) (w : σ)
    (addrMode addr : Nat) (opaddr : Int) (cc ca : Nat) (d : Prop) :
    stepInv s d (execSEI B s w addrMode addr opaddr cc ca) := by
  unfold execSEI
  repeat' split
  all_goals refine ⟨?_, ?_⟩
  all_goals first
    | exact Or.inl rfl
    | exact Or.inr Nat.and_le_right
    | exact Or.inr (Or.inl rfl)

/-- `stepInv` for `execSTA`. -/
theorem execSTA_inv {σ : Type} (B : Bus σ) (s : CPUState) (w : σ)
    (addrMode addr : Nat) (opaddr : Int) (cc ca : Nat) (d : Prop) :
    stepInv s d (execSTA B s w addrMode addr opaddr cc ca) := by
  unfold execSTA
  repeat' split
  all_goals refine ⟨?_, ?_⟩
  all_goals first
    | exact Or.inl rfl
    | exact Or.inr Nat.and_le_right
    | exact Or.inr (Or.inl rfl)

/-- `stepInv` for `execSTX`. -/
theorem execSTX_inv {σ : Type} (B : Bus σ) (s : CPUState) (w : σ)
    (addrMode addr : Nat) (opaddr : Int) (cc ca : Nat) (d : Prop) :
    stepInv s d (execSTX B s w addrMode addr opaddr cc ca) := by
  unfold execSTX
  repeat' split
  all_goals refine ⟨?_, ?_⟩
  all_goals first
    | exact Or.inl rfl
    | exact Or.inr Nat.and_le_right
    | exact Or.inr (Or.inl rfl)

/-- `stepInv` for `execSTY`. -/
theorem execSTY_inv {σ : Type} (B : Bus σ) (s : CPUState) (w : σ)
    (addrMode addr : Nat) (opaddr : Int) (cc ca : Nat) (d : Prop) :
    stepInv s d (execSTY B s w addrMode addr opaddr cc ca) := by
  unfold execSTY
  repeat' split
  all_goals refine ⟨?_, ?_⟩
  all_goals first
    | exact Or.inl rfl
    | exact Or.inr Nat.and_le_right
    | exact Or.inr (Or.inl rfl)

/-- `stepInv` for `execTAX`. -/
theorem execTAX_inv {σ : Type} (B : Bus σ) (s : CPUState) (w : σ)
    (addrMode addr : Nat) (opaddr : Int) (cc ca : Nat) (d : Prop) :
    stepInv s d (execTAX B s w addrMode addr opaddr cc ca) := by
  unfold execTAX
  repeat' split
  all_goals refine ⟨?_, ?_⟩
  all_goals first
    | exact Or.inl rfl
    | exact Or.inr Nat.and_le_right
    | exact Or.inr (Or.inl rfl)

/-- `stepInv` for `execTAY`. -/
theorem execTAY_inv {σ : Type} (B : Bus σ) (s : CPUState) (w : σ)
    (addrMode addr : Nat) (opaddr : Int) (cc ca : Nat) (d : Prop) :
    stepInv s d (execTAY B s w addrMode addr opaddr cc ca) := by
  unfold execTAY
  repeat' split
  all_goals refine ⟨?_, ?_⟩
  all_goals first
    | exact Or.inl rfl
    | exact Or.inr Nat.and_le_right
    | exact Or.inr (Or.inl rfl)

/-- `stepInv` for `execTSX`. -/
theorem execTSX_inv {σ : Type} (B : Bus σ) (s : CPUState) (w : σ)
    (addrMode addr : Nat) (opaddr : Int) (cc ca : Nat) (d : Prop) :
    stepInv s d (execTSX B s w addrMode addr opaddr cc ca) := by
  unfold execTSX
  repeat' split
  all_goals refine ⟨?_, ?_⟩
  all_goals first
    | exact Or.inl rfl
    | exact Or.inr Nat.and_le_right
    | exact Or.inr (Or.inl rfl)

/-- `stepInv` for `execTXA`. -/
theorem execTXA_inv {σ : Type} (B : Bus σ) (s : CPUState) (w : σ)
    (addrMode addr : Nat) (opaddr : Int) (cc ca : Nat) (d : Prop) :
    stepInv s d (execTXA B s w addrMode addr opaddr cc ca) := by
  unfold execTXA
  repeat' split
  all_goals refine ⟨?_, ?_⟩
  all_goals first
    | exact Or.inl rfl
    | exact Or.inr Nat.and_le_right
    | exact Or.inr (Or.inl rfl)

/-- `stepInv` for `execTXS`. -/
theorem execTXS_inv {σ : Type} (B : Bus σ) (s : CPUState) (w : σ)
    (addrMode addr : Nat) (opaddr : Int) (cc ca : Nat) (d : Prop) :
    stepInv s d (execTXS B s w addrMode addr opaddr cc ca) := by
  unfold execTXS
  repeat' split
  all_goals refine ⟨?_, ?_⟩
  all_goals first
    | exact Or.inl rfl
    | exact Or.inr Nat.and_le_right
    | exact Or.inr (Or.inl rfl)

/-- `stepInv` for `execTYA`. -/
theorem execTYA_inv {σ : Type} (B : Bus σ) (s : CPUState) (w : σ)
    (addrMode addr : Nat) (opaddr : Int) (cc ca : Nat) (d : Prop) :
    stepInv s d (execTYA B s w addrMode addr opaddr cc ca) := by
  unfold execTYA
  repeat' split
  all_goals refine ⟨?_, ?_⟩
  all_goals first
    | exact Or.inl rfl
    | exact Or.inr Nat.and_le_right
    | exact Or.inr (Or.inl rfl)

/-- `stepInv` for `execALR`. -/
theorem execALR_inv {σ : Type} (B : Bus σ) (s : CPUState) (w : σ)
    (addrMode addr : Nat) (opaddr : Int) (cc ca : Nat) (d : Prop) :
    stepInv s d (execALR B s w addrMode addr opaddr cc ca) := by
  unfold execALR
  repeat' split
  all_goals refine ⟨?_, ?_⟩
  all_goals first
    | exact Or.inl rfl
    | exact Or.inr Nat.and_le_right
    | exact Or.inr (Or.inl rfl)

/-- `stepInv` for `execANC`. -/
theorem execANC_inv {σ : Type} (B : Bus σ) (s : CPUState) (w : σ)
    (addrMode addr : Nat) (opaddr : Int) (cc ca : Nat) (d : Prop) :
    stepInv s d (execANC B s w addrMode addr opaddr cc ca) := by
  unfold execANC
  repeat' split
  all_goals refine ⟨?_, ?_⟩
  all_goals first
    | exact Or.inl rfl
    | exact Or.inr Nat.and_le_right
    | exact Or.inr (Or.inl rfl)

/-- `stepInv` for `execARR`. -/
theorem execARR_inv {σ : Type} (B : Bus σ) (s : CPUState) (w : σ)
    (addrMode addr : Nat) (opaddr : Int) (cc ca : Nat) (d : Prop) :
    stepInv s d (execARR B s w addrMode addr opaddr cc ca) := by
  unfold execARR
  repeat' split
  all_goals refine ⟨?_, ?_⟩
  all_goals first
    | exact Or.inl rfl
    | exact Or.inr Nat.and_le_right
    | exact Or.inr (Or.inl rfl)

/-- `stepInv` for `execAXS`. -/
theorem execAXS_inv {σ : Type} (B : Bus σ) (s : CPUState) (w : σ)
    (addrMode addr : Nat) (opaddr : Int) (cc ca : Nat) (d : Prop) :
    stepInv s d (execAXS B s w addrMode addr opaddr cc ca) := by
  unfold execAXS
  repeat' split
  all_goals refine ⟨?_, ?_⟩
  all_goals first
    | exact Or.inl rfl
    | exact Or.inr Nat.and_le_right
    | exact Or.inr (Or.inl rfl)

/-- `stepInv` for `execLAX`. -/
theorem execLAX_inv {σ : Type} (B : Bus σ) (s : CPUState) (w : σ)
    (addrMode addr : Nat) (opaddr : Int) (cc ca : Nat) (d : Prop) :
    stepInv s d (execLAX B s w addrMode addr opaddr cc ca) := by
  unfold execLAX
  repeat' split
  all_goals refine ⟨?_, ?_⟩
  all_goals first
    | exact Or.inl rfl
    | exact Or.inr Nat.and_le_right
    | exact Or.inr (Or.inl rfl)

/-- `stepInv` for `execSAX`. -/
theorem execSAX_inv {σ : Type} (B : Bus σ) (s : CPUState) (w : σ)
    (addrMode addr : Nat) (opaddr : Int) (cc ca : Nat) (d : Prop) :
    stepInv s d (execSAX B s w addrMode addr opaddr cc ca) := by
  unfold execSAX
  repeat' split
  all_goals refine ⟨?_, ?_⟩
  all_goals first
    | exact Or.inl rfl
    | exact Or.inr Nat.and_le_right
    | exact Or.inr (Or.inl rfl)

/-- `stepInv` for `execDCP`. -/
theorem execDCP_inv {σ : Type} (B : Bus σ) (s : CPUState) (w : σ)
    (addrMode addr : Nat) (opaddr : Int) (cc ca : Nat) (d : Prop) :
    stepInv s d (execDCP B s w addrMode addr opaddr cc ca) := by
  unfold execDCP
  repeat' split
  all_goals refine ⟨?_, ?_⟩
  all_goals first
    | exact Or.inl rfl
    | exact Or.inr Nat.and_le_right
    | exact Or.inr (Or.inl rfl)

/-- `stepInv` for `execISC`. -/
theorem execISC_inv {σ : Type} (B : Bus σ) (s : CPUState) (w : σ)
    (addrMode addr : Nat) (opaddr : Int) (cc ca : Nat) (d : Prop) :
    stepInv s d (execISC B s w addrMode addr opaddr cc ca) := by
  unfold execISC
  repeat' split
  all_goals refine ⟨?_, ?_⟩
  all_goals first
    | exact Or.inl rfl
    | exact Or.inr Nat.and_le_right
    | exact Or.inr (Or.inl rfl)

/-- `stepInv` for `execRLA`. -/
theorem execRLA_inv {σ : Type} (B : Bus σ) (s : CPUState) (w : σ)
    (addrMode addr : Nat) (opaddr : Int) (cc ca : Nat) (d : Prop) :
    stepInv s d (execRLA B s w addrMode addr opaddr cc ca) := by
  unfold execRLA
  repeat' split
  all_goals refine ⟨?_, ?_⟩
  all_goals first
    | exact Or.inl rfl
    | exact Or.inr Nat.and_le_right
    | exact Or.inr (Or.inl rfl)

/-- `stepInv` for `execRRA`. -/
theorem execRRA_inv {σ : Type} (B : Bus σ) (s : CPUState) (w : σ)
    (addrMode addr : Nat) (opaddr : Int) (cc ca : Nat) (d : Prop) :
    stepInv s d (execRRA B s w addrMode addr opaddr cc ca) := by
  unfold execRRA
  repeat' split
  all_goals refine ⟨?_, ?_⟩
  all_goals first
    | exact Or.inl rfl
    | exact Or.inr Nat.and_le_right
    | exact Or.inr (Or.inl rfl)

/-- `stepInv` for `execSLO`. -/
theorem execSLO_inv {σ : Type} (B : Bus σ) (s : CPUState) (w : σ)
    (addrMode addr : Nat) (opaddr : Int) (cc ca : Nat) (d : Prop) :
    stepInv s d (execSLO B s w addrMode addr opaddr cc ca) := by
  unfold execSLO
  repeat' split
  all_goals refine ⟨?_, ?_⟩
  all_goals first
    | exact Or.inl rfl
    | exact Or.inr Nat.and_le_right
    | exact Or.inr (Or.inl rfl)

/-- `stepInv` for `execSRE`. -/
theorem execSRE_inv {σ : Type} (B : Bus σ) (s : CPUState) (w : σ)
    (addrMode addr : Nat) (opaddr : Int) (cc ca : Nat) (d : Prop) :
    stepInv s d (execSRE B s w addrMode addr opaddr cc ca) := by
  unfold execSRE
  repeat' split
  all_goals refine ⟨?_, ?_⟩
  all_goals first
    | exact Or.inl rfl
    | exact Or.inr Nat.and_le_right
    | exact Or.inr (Or.inl rfl)

/-- `stepInv` for `execSKB`. -/
theorem execSKB_inv {σ : Type} (B : Bus σ) (s : CPUState) (w : σ)
    (addrMode addr : Nat) (opaddr : Int) (cc ca : Nat) (d : Prop) :
    stepInv s d (execSKB B s w addrMode addr opaddr cc ca) := by
  unfold execSKB
  repeat' split
  all_goals refine ⟨?_, ?_⟩
  all_goals first
    | exact Or.inl rfl
    | exact Or.inr Nat.and_le_right
    | exact Or.inr (Or.inl rfl)

/-- `stepInv` for `execIGN`. -/
theorem execIGN_inv {σ : Type} (B : Bus σ) (s : CPUState) (w : σ)
    (addrMode addr : Nat) (opaddr : Int) (cc ca : Nat) (d : Prop) :
    stepInv s d (execIGN B s w addrMode addr opaddr cc ca) := by
  unfold execIGN
  repeat' split
  all_goals refine ⟨?_, ?_⟩
  all_goals first
    | exact Or.inl rfl
    | exact Or.inr Nat.and_le_right
    | exact Or.inr (Or.inl rfl)

/-- `stepInv` for `execUnknown`. -/
theorem execUnknown_inv {σ : Type} (B : Bus σ) (s : CPUState) (w : σ)
    (addrMode addr : Nat) (opaddr : Int) (cc ca : Nat) (d : Prop) :
    stepInv s d (execUnknown B s w addrMode addr opaddr cc ca) := by
  unfold execUnknown
  repeat' split
  all_goals refine ⟨?_, ?_⟩
  all_goals first
    | exact Or.inl rfl
    | exact Or.inr Nat.and_le_right
    | exact Or.inr (Or.inl rfl)

/-- `stepInv` for the whole instruction dispatch. -/
theorem execInstruction_inv {σ : Type} (B : Bus σ) (s : CPUState) (w : σ)
    (inst addrMode addr : Nat) (opaddr : Int) (cc ca : Nat) (d : Prop)
    (hd : decodeInstr inst = .kRTI → rtiDirtyExit B s w → d) :
    stepInv s d (execInstruction B s w inst addrMode addr opaddr cc ca) := by
  unfold execInstruction
  split
  · exact execADC_inv B s w addrMode addr opaddr cc ca d
  · exact execAND_inv B s w addrMode addr opaddr cc ca d
  · exact execASL_inv B s w addrMode addr opaddr cc ca d
  · exact execBCC_inv B s w addrMode addr opaddr cc ca d
  · exact execBCS_inv B s w addrMode addr opaddr cc ca d
  · exact execBEQ_inv B s w addrMode addr opaddr cc ca d
  · exact execBIT_inv B s w addrMode addr opaddr cc ca d
  · exact execBMI_inv B s w addrMode addr opaddr cc ca d
  · exact execBNE_inv B s w addrMode addr opaddr cc ca d
  · exact execBPL_inv B s w addrMode addr opaddr cc ca d
  · exact execBRK_inv B s w addrMode addr opaddr cc ca d
  · exact execBVC_inv B s w addrMode addr opaddr cc ca d
  · exact execBVS_inv B s w addrMode addr opaddr cc ca d
  · exact execCLC_inv B s w addrMode addr opaddr cc ca d
  · exact execCLD_inv B s w addrMode addr opaddr cc ca d
  · exact execCLI_inv B s w addrMode addr opaddr cc ca d
  · exact execCLV_inv B s w addrMode addr opaddr cc ca d
  · exact execCMP_inv B s w addrMode addr opaddr cc ca d
  · exact execCPX_inv B s w addrMode addr opaddr cc ca d
  · exact execCPY_inv B s w addrMode addr opaddr cc ca d
  · exact execDEC_inv B s w addrMode addr opaddr cc ca d
  · exact execDEX_inv B s w addrMode addr opaddr cc ca d
  · exact execDEY_inv B s w addrMode addr opaddr cc ca d
  · exact execEOR_inv B s w addrMode addr opaddr cc ca d
  · exact execINC_inv B s w addrMode addr opaddr cc ca d
  · exact execINX_inv B s w addrMode addr opaddr cc ca d
  · exact execINY_inv B s w addrMode addr opaddr cc ca d
  · exact execJMP_inv B s w addrMode addr opaddr cc ca d
  · exact execJSR_inv B s w addrMode addr opaddr cc ca d
  · exact execLDA_inv B s w addrMode addr opaddr cc ca d
  · exact execLDX_inv B s w addrMode addr opaddr cc ca d
  · exact execLDY_inv B s w addrMode addr opaddr cc ca d
  · exact execLSR_inv B s w addrMode addr opaddr cc ca d
  · exact execNOP_inv B s w addrMode addr opaddr cc ca d
  · exact execORA_inv B s w addrMode addr opaddr cc ca d
  · exact execPHA_inv B s w addrMode addr opaddr cc ca d
  · exact execPHP_inv B s w addrMode addr opaddr cc ca d
  · exact execPLA_inv B s w addrMode addr opaddr cc ca d
  · exact execPLP_inv B s w addrMode addr opaddr cc ca d
  · exact execROL_inv B s w addrMode addr opaddr cc ca d
  · exact execROR_inv B s w addrMode addr opaddr cc ca d
  · rename_i heq
    exact execRTI_inv B s w addrMode addr opaddr cc ca d (hd heq)
  · exact execRTS_inv B s w addrMode addr opaddr cc ca d
  · exact execSBC_inv B s w addrMode addr opaddr cc ca d
  · exact execSEC_inv B s w addrMode addr opaddr cc ca d
  · exact execSED_inv B s w addrMode addr opaddr cc ca d
  · exact execSEI_inv B s w addrMode addr opaddr cc ca d
  · exact execSTA_inv B s w addrMode addr opaddr cc ca d
  · exact execSTX_inv B s w addrMode addr opaddr cc ca d
  · exact execSTY_inv B s w addrMode addr opaddr cc ca d
  · exact execTAX_inv B s w addrMode addr opaddr cc ca d
  · exact execTAY_inv B s w addrMode addr opaddr cc ca d
  · exact execTSX_inv B s w addrMode addr opaddr cc ca d
  · exact execTXA_inv B s w addrMode addr opaddr cc ca d
  · exact execTXS_inv B s w addrMode addr opaddr cc ca d
  · exact execTYA_inv B s w addrMode addr opaddr cc ca d
  · exact execALR_inv B s w addrMode addr opaddr cc ca d
  · exact execANC_inv B s w addrMode addr opaddr cc ca d
  · exact execARR_inv B s w addrMode addr opaddr cc ca d
  · exact execAXS_inv B s w addrMode addr opaddr cc ca d
  · exact execLAX_inv B s w addrMode addr opaddr cc ca d
  · exact execSAX_inv B s w addrMode addr opaddr cc ca d
  · exact execDCP_inv B s w addrMode addr opaddr cc ca d
  · exact execISC_inv B s w addrMode addr opaddr cc ca d
  · exact execRLA_inv B s w addrMode addr opaddr cc ca d
  · exact execRRA_inv B s w addrMode addr opaddr cc ca d
  · exact execSLO_inv B s w addrMode addr opaddr cc ca d
  · exact execSRE_inv B s w addrMode addr opaddr cc ca d
  · exact execSKB_inv B s w addrMode addr opaddr cc ca d
  · exact execIGN_inv B s w addrMode addr opaddr cc ca d
  · exact execUnknown_inv B s w addrMode addr opaddr cc ca d

/-- `doNonMaskableInterrupt` never touches `F_NOTUSED`. -/
theorem doNMI_F_NOTUSED {σ : Type} (B : Bus σ) (s : CPUState) (w : σ) (st : Nat) :
    (doNonMaskableInterrupt B s w st).1.F_NOTUSED = s.F_NOTUSED := by
  unfold doNonMaskableInterrupt
  generalize B.mmapLoad w 0x2000 = r4
  dsimp only
  split <;> rfl

/-- `doNonMaskableInterrupt` leaves the stack pointer alone or masks it. -/
theorem doNMI_SP {σ : Type} (B : Bus σ) (s : CPUState) (w : σ) (st : Nat) :
    (doNonMaskableInterrupt B s w st).1.REG_SP = s.REG_SP ∨
      (doNonMaskableInterrupt B s w st).1.REG_SP ≤ 0xff := by
  unfold doNonMaskableInterrupt
  generalize B.mmapLoad w 0x2000 = r4
  dsimp only
  split
  · exact Or.inr Nat.and_le_right
  · exact Or.inl rfl

/-- The interrupt gate of `CPU.emulate` never touches `F_NOTUSED`. -/
theorem gate_F_NOTUSED {σ : Type} (B : Bus σ) (s : CPUState) (w : σ) :
    (emulateIrqPhase B s w).1.F_NOTUSED = s.F_NOTUSED := by
  simp only [emulateIrqPhase]
  split
  · split
    all_goals first
      | rfl
      | (split <;> rfl)
      | exact doNMI_F_NOTUSED B _ _ _
  · rfl

/-- The interrupt gate leaves the stack pointer alone or masks it to 8 bits. -/
theorem gate_SP {σ : Type} (B : Bus σ) (s : CPUState) (w : σ) :
    (emulateIrqPhase B s w).1.REG_SP = s.REG_SP ∨
      (emulateIrqPhase B s w).1.REG_SP ≤ 0xff := by
  simp only [emulateIrqPhase]
  split
  · split
    all_goals first
      | exact Or.inl rfl
      | (split
         · exact Or.inl rfl
         · exact Or.inr Nat.and_le_right)
      | exact doNMI_SP B _ _ _
  · exact Or.inl rfl

/-- One `emulate` step keeps the stack invariant, with the dirty RTI exit as
the only escape for `F_NOTUSED`. -/
theorem emulate_inv {σ : Type} (B : Bus σ) (s0 : CPUState) (w0 : σ) :
    stepInv (emulateIrqPhase B s0 w0).1 (emulateRtiDirty B s0 w0)
      (emulate B s0 w0) := by
  unfold emulate
  exact execInstruction_inv B _ _ _ _ _ _ _ _ _ (fun hk hx => ⟨hk, hx⟩)

/-- Bit 5 of the status byte the three push sites build is set whenever
`F_NOTUSED` is 1. -/
theorem statusPushByte_bit5 (s : CPUState) (hs : s.F_NOTUSED = 1) :
    (statusPushByte s).testBit 5 = true := by
  have h32 : Nat.testBit (1 <<< 5) 5 = true := by decide
  simp only [statusPushByte, hs, Nat.testBit_or, Bool.or_eq_true]
  exact Or.inl (Or.inl (Or.inr h32))

/-- C5 (corrected): after one `CPU.emulate` step from any state over any
memory map, the stack pointer is either untouched or within 8 bits, and
`F_NOTUSED` is either untouched or 1 — except when the step executed RTI and
its early return at pulled address 0xffff skipped the `F_NOTUSED = 1` repair
after pulling a status byte with bit 5 clear.  Whenever `F_NOTUSED` is 1, the
status byte built by the push sites (PHP, BRK, interrupt entry) has bit 5
set. -/
theorem C5_stack_and_status {σ : Type} (B : Bus σ) (s0 : CPUState) (w0 : σ) :
    ((emulate B s0 w0).1.REG_SP = s0.REG_SP ∨ (emulate B s0 w0).1.REG_SP ≤ 0xff) ∧
    ((emulate B s0 w0).1.F_NOTUSED = s0.F_NOTUSED ∨ (emulate B s0 w0).1.F_NOTUSED = 1 ∨
      emulateRtiDirty B s0 w0) ∧
    (∀ s : CPUState, s.F_NOTUSED = 1 → (statusPushByte s).testBit 5 = true) := by
  obtain ⟨hsp, hnu⟩ := emulate_inv B s0 w0
  refine ⟨?_, ?_, fun s hs => statusPushByte_bit5 s hs⟩
  · rcases hsp with h | h
    · rw [h]
      exact gate_SP B s0 w0
    · exact Or.inr h
  · rcases hnu with h | h
    · rw [h, gate_F_NOTUSED B s0 w0]
      exact Or.inl rfl
    · exact Or.inr h

/-- C5 witness: a concrete discharge of the hypothesis of the pushed-status
part of `C5_stack_and_status`. -/
theorem C5_stack_and_status_witness :
    (statusPushByte resetState).testBit 5 = true :=
  (C5_stack_and_status ramBus resetState (fun _ => 0)).2.2 resetState rfl

end CPU

/-- C5 counterexample: running RTI with pulled status $00 and pulled return
address $FFFF leaves `F_NOTUSED = 0` (the early return skips the repair); the
next instruction, PHP, then pushes $10 — a status byte with bit 5 clear — onto
the stack at $01FF, refuting the claim that every pushed status byte has bit 5
set. -/
theorem C5_counterexample :
    (CPU.emulate ramBus c5cpu0 c5mem0).1.F_NOTUSED = 0 ∧
    (CPU.emulate ramBus c5cpu0 c5mem0).1.REG_PC = 0xffff ∧
    (CPU.emulate ramBus (CPU.emulate ramBus c5cpu0 c5mem0).1
        (CPU.emulate ramBus c5cpu0 c5mem0).2.1).2.1 0x1ff = 0x10 ∧
    Nat.testBit 0x10 5 = false := by
  refine ⟨by decide, by decide, by decide, by decide⟩

/-- C3: the claim that every taken conditional branch crossing a page adds 2
cycles is false of the code — the BMI case (cpu.js lines 270-272) omits the
page-cross test and always adds 1.  On identical page-crossing scenarios
(branch from $7FFF-page opcode to target $8071), BNE returns the base 2 plus
2 cycles, but BMI returns the base 2 plus only 1; a not-taken branch adds
nothing. -/
theorem C3_bmi_page_cross_cycles :
    ((0x8071 : Nat) &&& 0xff00) ≠ ((0x7fff : Nat) &&& 0xff00) ∧
    (CPU.emulate ramBus c3cpuBMI (c3mem 0x30)).2.2 = 3 ∧
    (CPU.emulate ramBus c3cpuBMI (c3mem 0x30)).1.REG_PC = 0x8071 ∧
    (CPU.emulate ramBus resetState (c3mem 0xd0)).2.2 = 4 ∧
    (CPU.emulate ramBus resetState (c3mem 0xd0)).1.REG_PC = 0x8071 ∧
    (CPU.emulate ramBus resetState (c3mem 0x30)).2.2 = 2 := by
  refine ⟨by decide, by decide, by decide, by decide, by decide, by decide⟩

namespace CPU

/-- C4: `JMP (abs)` with a pointer ending in $FF fetches the high vector byte
from the start of the *same* page (`indAbsHighAddr` wraps the low byte inside
the page), and a concrete `JMP ($10FF)` run resumes fetching at $1233 (the stored `REG_PC` is one less, by the source convention) — low byte from
$10FF, high byte from $1000 — in 5 cycles, not at $7733 (high byte from
$1100). -/
theorem C4_jmp_indirect_page_wrap :
    (∀ a : Nat, a &&& 0xff = 0xff → indAbsHighAddr a = a &&& 0xff00) ∧
    (CPU.emulate ramBus resetState c4mem).1.REG_PC + 1 = 0x1233 ∧
    (CPU.emulate ramBus resetState c4mem).2.2 = 5 := by
  refine ⟨fun a h => ?_, by decide, by decide⟩
  have h0 : (256 : Nat) &&& 255 = 0 := by decide
  simp [indAbsHighAddr, h, h0]

/-- C4 witness: the page-wrap equation evaluated at the concrete pointer
$10FF. -/
theorem C4_jmp_indirect_page_wrap_witness :
    indAbsHighAddr 0x10ff = 0x1000 :=
  (C4_jmp_indirect_page_wrap.1 0x10ff (by decide)).trans (by decide)

end CPU

/-- C1: the claim that the PPU never branches on mapper identity is false of
the code.  `renderBgScanline` (ppu.js lines 574 and 605) selects the number of
background tile fetches by testing `mapperType === 9`: MMC2 (mapper 9) and
MMC4 (mapper 10) declare the identical capability flag `hasLatch = true` and
both expose `latchAccess`, yet mapper 9 gets 34 fetches per scanline and
mapper 10 only 32. -/
theorem C1_renderBg_mapper_identity :
    Mapper9.hasLatch = Mapper10.hasLatch ∧
    Mapper.hasLatchDefault = false ∧
    renderBgIsMMC2 9 = true ∧ renderBgIsMMC2 10 = false ∧
    renderBgTileCount 9 = 34 ∧ renderBgTileCount 10 = 32 ∧
    renderBgTileCount 9 ≠ renderBgTileCount 10 := by decide

/-- C2: the MMC3 scanline IRQ rules.  `notifyA12` merely records the A12 level
(and leaves the CPU untouched) unless the call is a 0-to-1 transition with
rendering enabled on a fresh scanline, in which case it clocks the counter;
a clock reloads from the latch when the counter is 0 or a reload is pending,
and otherwise decrements, requesting a normal CPU IRQ (`requestIrq cpu 0`)
exactly when the decrement reaches 0 with IRQs enabled. -/
theorem C2_mmc3_scanline_irq {m : Mapper4Irq} {cpu : CPUState}
    {bg sp : Nat} {scan : Int} {v : Nat} :
    (¬(v = 1 ∧ m.ppuA12Prev = 0) →
      m.notifyA12 cpu bg sp scan v = ({ m with ppuA12Prev := v }, cpu)) ∧
    ((v = 1 ∧ m.ppuA12Prev = 0) → ¬(bg = 1 ∨ sp = 1) →
      m.notifyA12 cpu bg sp scan v = ({ m with ppuA12Prev := v }, cpu)) ∧
    ((v = 1 ∧ m.ppuA12Prev = 0) → m.lastClockScanline = scan →
      m.notifyA12 cpu bg sp scan v = ({ m with ppuA12Prev := v }, cpu)) ∧
    ((v = 1 ∧ m.ppuA12Prev = 0) → (bg = 1 ∨ sp = 1) → m.lastClockScanline ≠ scan →
      m.notifyA12 cpu bg sp scan v =
        ({ (m.clockIrqCounter cpu).1 with
            lastClockScanline := scan, ppuA12Prev := v },
          (m.clockIrqCounter cpu).2)) ∧
    ((m.irqCounter = 0 ∨ m.irqReloadPending) →
      m.clockIrqCounter cpu =
        ({ m with irqCounter := m.irqLatchValue, irqReloadPending := false }, cpu)) ∧
    (¬(m.irqCounter = 0 ∨ m.irqReloadPending) →
      (m.clockIrqCounter cpu).1 = { m with irqCounter := m.irqCounter - 1 } ∧
      (m.clockIrqCounter cpu).2 =
        (if m.irqCounter - 1 = 0 ∧ m.irqEnable ≠ 0
         then CPU.requestIrq cpu 0 else cpu)) := by
  refine ⟨?_, ?_, ?_, ?_, ?_, ?_⟩
  · intro h
    unfold Mapper4Irq.notifyA12
    rw [if_neg h]
  · intro h hr
    unfold Mapper4Irq.notifyA12
    rw [if_pos h, if_neg hr]
  · intro h hs
    unfold Mapper4Irq.notifyA12
    rw [if_pos h]
    split
    · rw [if_neg (by simp [hs])]
    · rfl
  · intro h hr hne
    unfold Mapper4Irq.notifyA12
    rw [if_pos h, if_pos hr, if_pos hne]
  · intro h
    unfold Mapper4Irq.clockIrqCounter
    rw [if_pos h]
  · intro h
    unfold Mapper4Irq.clockIrqCounter
    rw [if_neg h]
    dsimp only
    constructor
    · split <;> rfl
    · split <;> rfl

/-- C2 witness: the clocking branch of `C2_mmc3_scanline_irq` applied at a
concrete rising-edge call. -/
theorem C2_mmc3_scanline_irq_witness :
    c2m0.notifyA12 resetState 1 0 0 1 =
      ({ (c2m0.clockIrqCounter resetState).1 with
          lastClockScanline := 0, ppuA12Prev := 1 },
        (c2m0.clockIrqCounter resetState).2) :=
  (@C2_mmc3_scanline_irq c2m0 resetState 1 0 0 1).2.2.2.1 ⟨rfl, rfl⟩
    (Or.inl rfl) (by decide)

set_option maxRecDepth 8192 in
/-- C6: every CPU read of $2002 or one of its mirrors every 8 bytes up
through $3FFF routes to `readStatusRegister`, which returns the latched
status byte as it was *before* the read (so the returned VBlank bit is the
prior one), resets the two-write toggle (`firstWrite := true`), and clears
the VBlank flag (bit 7) in the latched byte. -/
theorem C6_ppustatus_read {p : PpuStatusRegs} :
    (∀ k : Nat, k < 1024 → mapperLoadTarget (0x2002 + 8 * k) = .reg .status) ∧
    (readStatusRegister p).1 = p.mem2002 ∧
    (readStatusRegister p).2.firstWrite = true ∧
    (readStatusRegister p).2.mem2002.testBit STATUS_VBLANK = false := by
  refine ⟨by decide, rfl, rfl, ?_⟩
  have h127 : Nat.testBit 127 7 = false := by decide
  simp only [readStatusRegister, setStatusFlag, STATUS_VBLANK]
  simp [Nat.testBit_or, Nat.testBit_and, h127]

/-- C6 witness: the routing and the VBlank-clearing read evaluated at the
mirror $200A and the all-ones status byte. -/
theorem C6_ppustatus_read_witness :
    mapperLoadTarget 0x200a = .reg .status ∧
    (readStatusRegister ⟨0xff, false⟩).1 = 0xff ∧
    (readStatusRegister ⟨0xff, false⟩).2.mem2002.testBit STATUS_VBLANK = false :=
  ⟨(@C6_ppustatus_read ⟨0xff, false⟩).1 1 (by decide),
    (@C6_ppustatus_read ⟨0xff, false⟩).2.1,
    (@C6_ppustatus_read ⟨0xff, false⟩).2.2.2⟩

/-- `spriteRamWriteUpdate` never touches the DMA-relevant plain fields. -/
theorem spriteRamWriteUpdate_plain (p : SpriteDmaState) (a v : Nat) :
    (spriteRamWriteUpdate p a v).cpuMem = p.cpuMem ∧
    (spriteRamWriteUpdate p a v).spriteMem = p.spriteMem ∧
    (spriteRamWriteUpdate p a v).sramAddress = p.sramAddress ∧
    (spriteRamWriteUpdate p a v).cyclesToHalt = p.cyclesToHalt := by
  unfold spriteRamWriteUpdate
  repeat' split
  all_goals exact ⟨rfl, rfl, rfl, rfl⟩

/-- OAM entries below the loop index are never written by `sramDMAIter`. -/
theorem sramDMAIter_spriteMem_lt (base : Nat) :
    ∀ (fuel i : Nat) (p : SpriteDmaState) (x : Nat), x < i →
      (sramDMAIter base fuel i p).spriteMem x = p.spriteMem x := by
  intro fuel
  induction fuel with
  | zero => intro i p x _; rfl
  | succ n ih =>
    intro i p x hx
    unfold sramDMAIter
    split
    · rw [ih (i + 1) _ x (Nat.lt_succ_of_lt hx),
        (spriteRamWriteUpdate_plain _ i _).2.1]
      exact if_neg (Nat.ne_of_lt hx)
    · rfl

/-- The loop state keeps `cpuMem`, `sramAddress` and `cyclesToHalt`. -/
theorem sramDMAIter_plain (base : Nat) :
    ∀ (fuel i : Nat) (p : SpriteDmaState),
      (sramDMAIter base fuel i p).cpuMem = p.cpuMem ∧
      (sramDMAIter base fuel i p).sramAddress = p.sramAddress ∧
      (sramDMAIter base fuel i p).cyclesToHalt = p.cyclesToHalt := by
  intro fuel
  induction fuel with
  | zero => intro i p; exact ⟨rfl, rfl, rfl⟩
  | succ n ih =>
    intro i p
    unfold sramDMAIter
    split
    · obtain ⟨h1, h2, h3⟩ := ih (i + 1) (spriteRamWriteUpdate _ i _)
      obtain ⟨g1, _, g3, g4⟩ := spriteRamWriteUpdate_plain
        { p with spriteMem := fun x =>
            if x = i then p.cpuMem (base + i) else p.spriteMem x } i
        (p.cpuMem (base + i))
      exact ⟨h1.trans g1, (h2.trans g3), h3.trans g4⟩
    · exact ⟨rfl, rfl, rfl⟩

/-- OAM entries from the loop start up to 255 receive the CPU page byte. -/
theorem sramDMAIter_spriteMem_copy (base : Nat) :
    ∀ (fuel i : Nat) (p : SpriteDmaState) (x : Nat), i ≤ x → x < 256 →
      x < i + fuel →
      (sramDMAIter base fuel i p).spriteMem x = p.cpuMem (base + x) := by
  intro fuel
  induction fuel with
  | zero => intro i p x hix _ hf; omega
  | succ n ih =>
    intro i p x hix hx hf
    unfold sramDMAIter
    rw [if_pos (Nat.lt_of_le_of_lt hix hx)]
    rcases Nat.eq_or_lt_of_le hix with hxi | hxi
    · rw [sramDMAIter_spriteMem_lt base n (i + 1) _ x (by omega),
        (spriteRamWriteUpdate_plain _ i _).2.1]
      subst hxi
      exact if_pos rfl
    · rw [ih (i + 1) _ x hxi hx (by omega),
        (spriteRamWriteUpdate_plain _ i _).1]

/-- C7 (corrected): writing `v` to $4014 copies CPU page `v << 8` into OAM
only from the *current OAM address* upward — entry `x` receives
`cpuMem[(v << 8) + x]` for `sramAddress ≤ x < 256`, while entries below the
current OAM address keep their old bytes — and always adds 513 to the CPU's
halt counter.  The claim's "all 256 bytes for every current OAM address"
holds only when `sramAddress = 0`. -/
theorem C7_sramDMA {p : SpriteDmaState} {v : Nat} :
    (∀ x, p.sramAddress ≤ x → x < 256 →
      (sramDMA p v).spriteMem x = p.cpuMem (v * 0x100 + x)) ∧
    (∀ x, x < p.sramAddress → (sramDMA p v).spriteMem x = p.spriteMem x) ∧
    (sramDMA p v).cyclesToHalt = p.cyclesToHalt + 513 := by
  refine ⟨?_, ?_, ?_⟩
  · intro x h1 h2
    exact sramDMAIter_spriteMem_copy (v * 0x100) 256 p.sramAddress p x h1 h2
      (by omega)
  · intro x h1
    exact sramDMAIter_spriteMem_lt (v * 0x100) 256 p.sramAddress p x h1
  · show (sramDMAIter (v * 0x100) 256 p.sramAddress p).cyclesToHalt + 513 =
      p.cyclesToHalt + 513
    rw [(sramDMAIter_plain (v * 0x100) 256 p.sramAddress p).2.2]

/-- C7 witness: the copy equation and the halt increment of `C7_sramDMA`
discharged at the OAM-address-0 state. -/
theorem C7_sramDMA_witness :
    (sramDMA c7p1 2).spriteMem 5 = c7p1.cpuMem (2 * 0x100 + 5) ∧
    (sramDMA c7p1 2).cyclesToHalt = c7p1.cyclesToHalt + 513 :=
  ⟨(@C7_sramDMA c7p1 2).1 5 (by decide) (by decide), (@C7_sramDMA c7p1 2).2.2⟩

set_option maxRecDepth 4096 in
/-- C7 counterexample: with the OAM address at 1, the DMA leaves OAM byte 0
untouched (still 0) even though the CPU page holds 7 there — not all 256
bytes are copied. -/
theorem C7_counterexample :
    (sramDMA c7p0 0).spriteMem 0 = 0 ∧ c7p0.cpuMem (0 * 0x100 + 0) = 7 := by
  constructor
  · simp only [sramDMA]
    rw [sramDMAIter_spriteMem_lt _ 256 c7p0.sramAddress c7p0 0 (by decide)]
    rfl
  · rfl

/-- C8: the consecutive-cycle write guard of `Mapper1.write` is dead code.
`cpu.js` never defines a `cycles` property, so `this.nes.cpu.cycles || 0` is
always 0 and the guard `currentCycle > 0 && ...` never fires: for every
register write (address ≥ $8000) the result is entirely independent of
`lastWriteCycle`, i.e. of how recently the previous write happened — no write
is ever ignored. -/
theorem C8_mapper1_guard_dead :
    cpuCyclesProperty = none ∧
    mapper1CurrentCycle = 0 ∧
    (∀ (m : Mapper1Regs) (c address value : Nat), 0x8000 ≤ address →
      Mapper1Regs.write m address value =
        Mapper1Regs.write { m with lastWriteCycle := c } address value) := by
  refine ⟨rfl, rfl, ?_⟩
  intro m c address value h
  unfold Mapper1Regs.write
  rw [if_neg (Nat.not_lt.mpr h), if_neg (Nat.not_lt.mpr h)]
  rfl

/-- C8 witness: the guard-independence equation of `C8_mapper1_guard_dead`
at a concrete write, with the previous write stamped just one cycle ago. -/
theorem C8_mapper1_guard_dead_witness :
    Mapper1Regs.write Mapper1Regs.init 0x8000 1 =
      Mapper1Regs.write { Mapper1Regs.init with lastWriteCycle := 99 } 0x8000 1 :=
  C8_mapper1_guard_dead.2.2 Mapper1Regs.init 99 0x8000 1 (by decide)

/-- C8 counterexample: five writes to $8000 on (necessarily) consecutive
recorded cycles — every write happens at `currentCycle = 0` — are all
accepted: the serial register shifts five times and latches $1F into the
control register, where the claim says writes 2-5 would be ignored. -/
theorem C8_counterexample :
    (((((Mapper1Regs.init.write 0x8000 1).write 0x8000 1).write 0x8000 1).write
        0x8000 1).write 0x8000 1).controlReg = 0x1f ∧
    Mapper1Regs.init.controlReg = 0x0c := by
  exact ⟨by decide, by decide⟩

/-- C9 (corrected): `ROM.load` throws — leaving the ROM invalid — *exactly*
when the magic `NES\x1a` occurs nowhere in the input (it is searched with
`indexOf`, not anchored at offset 0), and on every input containing the magic
anywhere it runs to completion and sets `valid = true`: there is no
truncation check at all, so inputs too short for the header's declared PRG
and CHR payload are accepted silently (the missing bytes simply stay
unassigned). -/
theorem C9_rom_load {data : List Nat} :
    (ROMload data = none ↔ containsMagic data = false) ∧
    (∀ r : RomState, ROMload data = some r → r.valid = true) := by
  unfold ROMload
  split
  · rename_i hc
    refine ⟨⟨fun _ => hc, fun _ => rfl⟩, ?_⟩
    intro r h
    exact absurd h (by simp)
  · rename_i hc
    refine ⟨⟨fun h => absurd h (by simp), fun h => absurd h hc⟩, ?_⟩
    intro r h
    cases h
    rfl

/-- C9 witness: the failure direction of `C9_rom_load` discharged on the
empty input. -/
theorem C9_rom_load_witness : ROMload [] = none :=
  (@C9_rom_load []).1.mpr (by decide)

/-- C9 counterexample: the five-byte input $58 4E 45 53 1A does not *begin*
with the magic and is far too short for the 26 PRG banks its byte 4 declares,
yet `ROM.load` accepts it: the loaded ROM has `valid = true`, `romCount = 26`
and an unassigned PRG byte at bank 0 offset 100. -/
theorem C9_counterexample :
    listStartsWith magicBytes [0x58, 0x4e, 0x45, 0x53, 0x1a] = false ∧
    (ROMload [0x58, 0x4e, 0x45, 0x53, 0x1a]).map RomState.valid = some true ∧
    (ROMload [0x58, 0x4e, 0x45, 0x53, 0x1a]).map RomState.romCount = some 26 ∧
    (ROMload [0x58, 0x4e, 0x45, 0x53, 0x1a]).map (fun r => r.prgAt 0 100) =
      some none := by
  refine ⟨by decide, by decide, by decide, by decide⟩

namespace CPU

/-- With PPUCTRL bit 7 clear, `doNonMaskableInterrupt` performs only the
`$2000` load and leaves the CPU untouched. -/
theorem doNMI_discard {σ : Type} (B : Bus σ) (s : CPUState) (w : σ) (st : Nat)
    (h : (B.mmapLoad w 0x2000).1 &&& 128 = 0) :
    doNonMaskableInterrupt B s w st = (s, (B.mmapLoad w 0x2000).2) := by
  unfold doNonMaskableInterrupt
  generalize hg : B.mmapLoad w 0x2000 = r4
  rw [hg] at h
  dsimp only
  rw [if_neg (fun hn => hn h)]

/-- A pending NMI with PPUCTRL bit 7 clear is consumed without entering the
handler, but the commit still overwrites `F_BRK` with `F_BRK_NEW` (and the
two scratch `_NEW` registers). -/
theorem gate_discarded_nmi {σ : Type} (B : Bus σ) (s : CPUState) (w : σ)
    (h1 : s.irqRequested = true) (h2 : s.irqType = some 1)
    (h3 : (B.mmapLoad w 0x2000).1 &&& 128 = 0) :
    emulateIrqPhase B s w =
      ({ s with
          REG_PC_NEW := s.REG_PC, F_INTERRUPT_NEW := s.F_INTERRUPT,
          F_BRK := s.F_BRK_NEW, irqRequested := false },
        (B.mmapLoad w 0x2000).2) := by
  unfold emulateIrqPhase
  rw [if_pos h1]
  dsimp only
  rw [h2]
  dsimp only
  rw [doNMI_discard B _ w _ h3]

end CPU

/-- C10 (corrected): `startVBlank` requests the NMI unconditionally (the
request is recorded whatever the CPU flags or the NMI-on-VBlank bit say);
the interrupt gate then takes the NMI — pushing the return address and
status and loading the vector from $FFFA, as the concrete run shows — only
if bit 7 of the CPU-visible $2000 byte is set at that moment.  Otherwise the
pending request is consumed and discarded without touching PC, SP, the stack
or the architectural flags *except* that the commit path still overwrites
`F_BRK` with the scratch `F_BRK_NEW` (and rewrites the two `_NEW` scratch
registers), so "no change to any flag" fails. -/
theorem C10_vblank_nmi {σ : Type} (B : Bus σ) (cpu : CPUState) (w : σ) :
    ((startVBlankCpuEffect cpu).irqRequested = true ∧
      (startVBlankCpuEffect cpu).irqType = some 1) ∧
    (cpu.irqRequested = true → cpu.irqType = some 1 →
      (B.mmapLoad w 0x2000).1 &&& 128 = 0 →
      CPU.emulateIrqPhase B cpu w =
        ({ cpu with
            REG_PC_NEW := cpu.REG_PC, F_INTERRUPT_NEW := cpu.F_INTERRUPT,
            F_BRK := cpu.F_BRK_NEW, irqRequested := false },
          (B.mmapLoad w 0x2000).2)) ∧
    ((CPU.emulateIrqPhase ramBus c10cpu c10mem).1.REG_PC = 0x1233 ∧
      (CPU.emulateIrqPhase ramBus c10cpu c10mem).1.REG_SP = 0xfc ∧
      (CPU.emulateIrqPhase ramBus c10cpu c10mem).2 0x1ff = 0x80 ∧
      (CPU.emulateIrqPhase ramBus c10cpu c10mem).2 0x1fe = 0x00 ∧
      (CPU.emulateIrqPhase ramBus c10cpu c10mem).2 0x1fd = 52) := by
  refine ⟨⟨?_, ?_⟩, ?_, by decide, by decide, by decide, by decide, by decide⟩
  · unfold startVBlankCpuEffect CPU.requestIrq
    rw [if_neg (fun hc => absurd hc.2 (by decide))]
  · unfold startVBlankCpuEffect CPU.requestIrq
    rw [if_neg (fun hc => absurd hc.2 (by decide))]
  · intro h1 h2 h3
    exact CPU.gate_discarded_nmi B cpu w h1 h2 h3

/-- C10 witness: the discard branch of `C10_vblank_nmi` at the concrete
pending-NMI CPU over the all-zero memory. -/
theorem C10_vblank_nmi_witness :
    CPU.emulateIrqPhase ramBus c10cpuD c10memD =
      ({ c10cpuD with
          REG_PC_NEW := c10cpuD.REG_PC, F_INTERRUPT_NEW := c10cpuD.F_INTERRUPT,
          F_BRK := c10cpuD.F_BRK_NEW, irqRequested := false },
        (ramBus.mmapLoad c10memD 0x2000).2) :=
  (C10_vblank_nmi ramBus c10cpuD c10memD).2.1 rfl rfl (by decide)

/-- C10 counterexample: a pending VBlank NMI discarded because PPUCTRL bit 7
is clear still flips `F_BRK` from 1 to 0 (the stale `F_BRK_NEW`), refuting
"no change to PC, SP, the stack, or any flag". -/
theorem C10_counterexample :
    (CPU.emulateIrqPhase ramBus c10cpuD c10memD).1.F_BRK = 0 ∧
    c10cpuD.F_BRK = 1 ∧
    (CPU.emulateIrqPhase ramBus c10cpuD c10memD).1.irqRequested = false ∧
    (CPU.emulateIrqPhase ramBus c10cpuD c10memD).1.REG_PC = c10cpuD.REG_PC ∧
    (CPU.emulateIrqPhase ramBus c10cpuD c10memD).1.REG_SP = c10cpuD.REG_SP := by
  refine ⟨by decide, by decide, by decide, by decide, by decide⟩

end JsNes
